import Mathlib

/-!
Verification development for a single-file Rust B+ tree storage engine
(src/src/main.rs).  The engine stores fixed-size 4096-byte pages holding
either leaf or internal B+ tree nodes, accessed through byte-level
accessors; this file embeds the page model, the pager, and the tree
operations as executable Lean definitions and proves properties of them.

Pages are modelled as write logs over an initially zeroed byte array
(the pager hands out zeroed pages for a fresh database file).  Process
aborts (process::exit / panic) are modelled as `Except.error` with a
`Fatal` code; unbounded recursion is modelled with an explicit fuel
parameter whose exhaustion is a distinguished error.
-/

namespace SqliteClone

/-- A byte buffer (in particular a 4096-byte page), encoded as a single
natural number in which the byte at offset i occupies the 256^i place.
This is exactly the little-endian reading of the byte array, so a
buffer b with bytes b0, b1, ... is b0 + 256*b1 + 256^2*b2 + ...; byte
slices of width w are the base-256^w digits.  The encoding is a
bijection between byte arrays and naturals below 256^size, and the
read/write primitives below act on it exactly as slice reads and
copy_from_slice act on the array. -/
abbrev Mem := Nat

/-- Read the byte slice [off, off+len) as a little-endian value
(for len = 4 this is precisely u32::from_le_bytes of the slice). -/
def readRange (m : Mem) (off len : Nat) : Nat :=
  m / 256 ^ off % 256 ^ len

/-- Overwrite the byte slice [off, off+len) with the little-endian
bytes of v (for len = 4 this is precisely copying u32::to_le_bytes;
v is reduced mod 256^len, matching the fixed slice width). -/
def writeRange (m : Mem) (off len v : Nat) : Mem :=
  m % 256 ^ off + v % 256 ^ len * 256 ^ off + m / 256 ^ (off + len) * 256 ^ (off + len)

def readByte (m : Mem) (i : Nat) : Nat := readRange m i 1

def get_u32_at (m : Mem) (off : Nat) : Nat := readRange m off 4

def set_u32_at (m : Mem) (off : Nat) (v : Nat) : Mem := writeRange m off 4 v

/-! ## Row layout (struct Row, repr(C): u32 id, [u8; 32] username, [u8; 255] email) -/

def COLUMN_USERNAME_SIZE : Nat := 32
def COLUMN_EMAIL_SIZE : Nat := 255
def ID_SIZE : Nat := 4
def USERNAME_SIZE : Nat := COLUMN_USERNAME_SIZE
def EMAIL_SIZE : Nat := COLUMN_EMAIL_SIZE
def ID_OFFSET : Nat := 0
def USERNAME_OFFSET : Nat := ID_OFFSET + ID_SIZE
def EMAIL_OFFSET : Nat := USERNAME_OFFSET + USERNAME_SIZE
def ROW_SIZE : Nat := ID_SIZE + USERNAME_SIZE + EMAIL_SIZE

/-- A row value; the [u8; 32] username and [u8; 255] email byte arrays
are carried in the same little-endian byte encoding as buffers (a
username below 256^32, an email below 256^255), and id is a u32. -/
structure Row where
  id : Nat
  username : Nat
  email : Nat
  deriving Repr, DecidableEq

/-- Row::serialize_row: write the id little-endian at ID_OFFSET, the raw
username bytes at USERNAME_OFFSET and the raw email bytes at
EMAIL_OFFSET of the destination buffer (given by its base offset). -/
def serialize_row (r : Row) (m : Mem) (base : Nat) : Mem :=
  writeRange
    (writeRange
      (writeRange m (base + ID_OFFSET) ID_SIZE r.id)
      (base + USERNAME_OFFSET) COLUMN_USERNAME_SIZE r.username)
    (base + EMAIL_OFFSET) COLUMN_EMAIL_SIZE r.email

/-- Row::deserialize from a byte buffer. -/
def deserialize (source : Mem) : Row :=
  { id := readRange source ID_OFFSET ID_SIZE
    username := readRange source USERNAME_OFFSET USERNAME_SIZE
    email := readRange source EMAIL_OFFSET EMAIL_SIZE }

/-! ## Page and node layout constants -/

def PAGE_SIZE : Nat := 4096
def TABLE_MAX_PAGES : Nat := 100

def NODE_TYPE_SIZE : Nat := 1
def NODE_TYPE_OFFSET : Nat := 0
def IS_ROOT_SIZE : Nat := 1
def IS_ROOT_OFFSET : Nat := NODE_TYPE_OFFSET + NODE_TYPE_SIZE
def PARENT_POINTER_SIZE : Nat := 4
def PARENT_POINTER_OFFSET : Nat := IS_ROOT_OFFSET + IS_ROOT_SIZE
def COMMON_NODE_HEADER_SIZE : Nat := NODE_TYPE_SIZE + IS_ROOT_SIZE + PARENT_POINTER_SIZE

def LEAF_NODE_NUM_CELLS_SIZE : Nat := 4
def LEAF_NODE_NUM_CELLS_OFFSET : Nat := COMMON_NODE_HEADER_SIZE
def LEAF_NODE_KEY_SIZE : Nat := 4
def LEAF_NODE_KEY_OFFSET : Nat := 0
def LEAF_NODE_VALUE_SIZE : Nat := ROW_SIZE
def LEAF_NODE_VALUE_OFFSET : Nat := LEAF_NODE_KEY_OFFSET + LEAF_NODE_KEY_SIZE
def LEAF_NODE_CELL_SIZE : Nat := LEAF_NODE_KEY_SIZE + LEAF_NODE_VALUE_SIZE
def LEAF_NODE_NEXT_LEAF_SIZE : Nat := 4
def LEAF_NODE_NEXT_LEAF_OFFSET : Nat := LEAF_NODE_NUM_CELLS_OFFSET + LEAF_NODE_NUM_CELLS_SIZE
def LEAF_NODE_HEADER_SIZE : Nat :=
  COMMON_NODE_HEADER_SIZE + LEAF_NODE_NUM_CELLS_SIZE + LEAF_NODE_NEXT_LEAF_SIZE
def LEAF_NODE_SPACE_FOR_CELLS : Nat := PAGE_SIZE - LEAF_NODE_HEADER_SIZE
def LEAF_NODE_MAX_CELLS : Nat := LEAF_NODE_SPACE_FOR_CELLS / LEAF_NODE_CELL_SIZE
def LEAF_NODE_RIGHT_SPLIT_COUNT : Nat := (LEAF_NODE_MAX_CELLS + 1) / 2
def LEAF_NODE_LEFT_SPLIT_COUNT : Nat :=
  (LEAF_NODE_MAX_CELLS + 1) - LEAF_NODE_RIGHT_SPLIT_COUNT

def INTERNAL_NODE_NUM_KEYS_SIZE : Nat := 4
def INTERNAL_NODE_NUM_KEYS_OFFSET : Nat := COMMON_NODE_HEADER_SIZE
def INTERNAL_NODE_RIGHT_CHILD_SIZE : Nat := 4
def INTERNAL_NODE_RIGHT_CHILD_OFFSET : Nat :=
  INTERNAL_NODE_NUM_KEYS_OFFSET + INTERNAL_NODE_NUM_KEYS_SIZE
def INTERNAL_NODE_HEADER_SIZE : Nat :=
  COMMON_NODE_HEADER_SIZE + INTERNAL_NODE_NUM_KEYS_SIZE + INTERNAL_NODE_RIGHT_CHILD_SIZE
def INTERNAL_NODE_KEY_SIZE : Nat := 4
def INTERNAL_NODE_CHILD_SIZE : Nat := 4
def INTERNAL_NODE_CELL_SIZE : Nat := INTERNAL_NODE_CHILD_SIZE + INTERNAL_NODE_KEY_SIZE
def INTERNAL_NODE_KEY_OFFSET : Nat := INTERNAL_NODE_CHILD_SIZE

def INVALID_PAGE_NUM : Nat := 4294967295
def INTERNAL_NODE_MAX_CELLS : Nat := 3

/-- Decidable equality for Except results, used to state and decide
concrete execution facts. -/
instance exceptDecEq {ε α : Type} [DecidableEq ε] [DecidableEq α] :
    DecidableEq (Except ε α) := fun x y =>
  match x, y with
  | .ok a, .ok b =>
    if h : a = b then .isTrue (by rw [h]) else .isFalse (fun hc => h (Except.ok.inj hc))
  | .error a, .error b =>
    if h : a = b then .isTrue (by rw [h]) else .isFalse (fun hc => h (Except.error.inj hc))
  | .ok _, .error _ => .isFalse (fun hc => Except.noConfusion hc)
  | .error _, .ok _ => .isFalse (fun hc => Except.noConfusion hc)

/-! ## Fatal process aborts and node types -/

/-- Every process::exit / panic site of the source, as an error code. -/
inductive Fatal where
  | pageOutOfBounds
  | childNumTooBig
  | invalidRightChild
  | invalidChild
  | unknownNodeType
  | emptyLeafMaxKey
  | corruptFile
  | fuelExhausted
  deriving Repr, DecidableEq

inductive NodeType where
  | internal
  | leaf
  deriving Repr, DecidableEq

/-! ## Node header and body accessors (pure byte views) -/

def get_node_type (m : Mem) : Except Fatal NodeType :=
  match readByte m NODE_TYPE_OFFSET with
  | 0 => .ok .internal
  | 1 => .ok .leaf
  | _ => .error .unknownNodeType

def set_node_type (m : Mem) (t : NodeType) : Mem :=
  writeRange m NODE_TYPE_OFFSET 1 (match t with | .internal => 0 | .leaf => 1)

def is_node_root (m : Mem) : Bool :=
  readByte m IS_ROOT_OFFSET ≠ 0

def set_node_root (m : Mem) (b : Bool) : Mem :=
  writeRange m IS_ROOT_OFFSET 1 (if b then 1 else 0)

def node_parent (m : Mem) : Nat :=
  get_u32_at m PARENT_POINTER_OFFSET

def set_node_parent (m : Mem) (v : Nat) : Mem :=
  set_u32_at m PARENT_POINTER_OFFSET v

def leaf_node_num_cells (m : Mem) : Nat :=
  get_u32_at m LEAF_NODE_NUM_CELLS_OFFSET

def set_leaf_node_num_cells (m : Mem) (v : Nat) : Mem :=
  set_u32_at m LEAF_NODE_NUM_CELLS_OFFSET v

def leaf_node_next_leaf (m : Mem) : Nat :=
  get_u32_at m LEAF_NODE_NEXT_LEAF_OFFSET

def set_leaf_node_next_leaf (m : Mem) (v : Nat) : Mem :=
  set_u32_at m LEAF_NODE_NEXT_LEAF_OFFSET v

def leaf_node_cell_offset (cell_num : Nat) : Nat :=
  LEAF_NODE_HEADER_SIZE + cell_num * LEAF_NODE_CELL_SIZE

def leaf_node_key (m : Mem) (cell_num : Nat) : Nat :=
  get_u32_at m (leaf_node_cell_offset cell_num)

def leaf_node_cell_read (m : Mem) (cell_num : Nat) : Nat :=
  readRange m (leaf_node_cell_offset cell_num) LEAF_NODE_CELL_SIZE

def leaf_node_cell_write (m : Mem) (cell_num : Nat) (bs : Nat) : Mem :=
  writeRange m (leaf_node_cell_offset cell_num) LEAF_NODE_CELL_SIZE bs

def leaf_node_value_read (m : Mem) (cell_num : Nat) : Nat :=
  readRange m (leaf_node_cell_offset cell_num + LEAF_NODE_KEY_SIZE) ROW_SIZE

def internal_node_num_keys (m : Mem) : Nat :=
  get_u32_at m INTERNAL_NODE_NUM_KEYS_OFFSET

def set_internal_node_num_keys (m : Mem) (v : Nat) : Mem :=
  set_u32_at m INTERNAL_NODE_NUM_KEYS_OFFSET v

def internal_node_right_child (m : Mem) : Nat :=
  get_u32_at m INTERNAL_NODE_RIGHT_CHILD_OFFSET

def set_internal_node_right_child (m : Mem) (v : Nat) : Mem :=
  set_u32_at m INTERNAL_NODE_RIGHT_CHILD_OFFSET v

def internal_node_cell_offset (cell_num : Nat) : Nat :=
  INTERNAL_NODE_HEADER_SIZE + cell_num * INTERNAL_NODE_CELL_SIZE

def internal_node_key_at (m : Mem) (key_num : Nat) : Nat :=
  get_u32_at m (internal_node_cell_offset key_num + INTERNAL_NODE_CHILD_SIZE)

def set_internal_node_key (m : Mem) (index : Nat) (key : Nat) : Mem :=
  set_u32_at m
    (INTERNAL_NODE_HEADER_SIZE + index * INTERNAL_NODE_CELL_SIZE + INTERNAL_NODE_KEY_OFFSET) key

def internal_node_cell_read (m : Mem) (cell_num : Nat) : Nat :=
  readRange m (internal_node_cell_offset cell_num) INTERNAL_NODE_CELL_SIZE

def internal_node_cell_write (m : Mem) (cell_num : Nat) (bs : Nat) : Mem :=
  writeRange m (internal_node_cell_offset cell_num) INTERNAL_NODE_CELL_SIZE bs

/-- internal_node_child used as an rvalue: bounds and INVALID checks,
returning the child page number (the right child when child_num equals
num_keys). -/
def internal_node_child_get (m : Mem) (child_num : Nat) : Except Fatal Nat :=
  let num_keys := internal_node_num_keys m
  if child_num > num_keys then .error .childNumTooBig
  else if child_num = num_keys then
    let rc := internal_node_right_child m
    if rc = INVALID_PAGE_NUM then .error .invalidRightChild else .ok rc
  else
    let c := get_u32_at m (internal_node_cell_offset child_num)
    if c = INVALID_PAGE_NUM then .error .invalidChild else .ok c

/-- Assignment through internal_node_child: the accessor's checks run on
the current value, then the referenced slot (the right-child slot when
child_num equals num_keys, otherwise the cell's child slot) is
overwritten. -/
def internal_node_child_set (m : Mem) (child_num : Nat) (v : Nat) : Except Fatal Mem :=
  let num_keys := internal_node_num_keys m
  if child_num > num_keys then .error .childNumTooBig
  else if child_num = num_keys then
    let rc := internal_node_right_child m
    if rc = INVALID_PAGE_NUM then .error .invalidRightChild
    else .ok (set_internal_node_right_child m v)
  else
    let c := get_u32_at m (internal_node_cell_offset child_num)
    if c = INVALID_PAGE_NUM then .error .invalidChild
    else .ok (set_u32_at m (internal_node_cell_offset child_num) v)

def init_leaf_node (m : Mem) : Mem :=
  set_leaf_node_next_leaf (set_leaf_node_num_cells (set_node_root (set_node_type m .leaf) false) 0) 0

def init_internal_node (m : Mem) : Mem :=
  set_internal_node_right_child
    (set_internal_node_num_keys (set_node_root (set_node_type m .internal) false) 0)
    INVALID_PAGE_NUM

/-! ## Pager and table -/

/-- The pager: a backing file (as its byte contents plus a length), the
number of pages handed out so far, and the cache of TABLE_MAX_PAGES
page slots. -/
structure Pager where
  file : Nat
  file_length : Nat
  num_pages : Nat
  pages : List (Option Mem)
  deriving Repr, DecidableEq

structure Table where
  root_page_num : Nat
  pager : Pager
  deriving Repr, DecidableEq

/-- get_page: out-of-range page numbers abort; a cache miss installs a
zeroed page, filled from the file when the page lies in the on-disk
range (with a final partial page read short), and bumps num_pages. -/
def get_page (p : Pager) (page_num : Nat) : Except Fatal (Mem × Pager) :=
  if page_num ≥ TABLE_MAX_PAGES then .error .pageOutOfBounds
  else
    match (p.pages.getD page_num none) with
    | some pg => .ok (pg, p)
    | none =>
      let num_disk := p.file_length / PAGE_SIZE
      let bytes_to_read : Nat :=
        if page_num < num_disk then PAGE_SIZE
        else if page_num = num_disk ∧ p.file_length % PAGE_SIZE ≠ 0 then
          p.file_length % PAGE_SIZE
        else 0
      let pg : Mem := readRange p.file (page_num * PAGE_SIZE) bytes_to_read
      let p' : Pager :=
        { p with
          pages := p.pages.set page_num (some pg)
          num_pages := if page_num ≥ p.num_pages then page_num + 1 else p.num_pages }
      .ok (pg, p')

def get_unused_page_num (p : Pager) : Nat := p.num_pages

def getPageT (T : Table) (n : Nat) : Except Fatal (Mem × Table) :=
  match get_page T.pager n with
  | .error e => .error e
  | .ok (m, p) => .ok (m, { T with pager := p })

/-- Store a (mutated) resident page back into the cache slot it was
obtained from; this models writes through the &mut page reference. -/
def putPage (T : Table) (n : Nat) (m : Mem) : Table :=
  { T with pager := { T.pager with pages := T.pager.pages.set n (some m) } }

/-- pager_open: the file is opened (abstracted as its bytes and length);
a length that is not a whole number of pages aborts, otherwise the pager
starts with num_pages = file_length / PAGE_SIZE and all slots empty. -/
def pager_open (file : Nat) (file_length : Nat) : Except Fatal Pager :=
  if file_length % PAGE_SIZE ≠ 0 then .error .corruptFile
  else
    .ok { file := file
          file_length := file_length
          num_pages := file_length / PAGE_SIZE
          pages := List.replicate TABLE_MAX_PAGES none }

/-- db_open: open the pager; on an empty file, initialize page 0 as an
empty leaf root. -/
def db_open (file : Nat) (file_length : Nat) : Except Fatal Table :=
  match pager_open file file_length with
  | .error e => .error e
  | .ok pager =>
    if pager.num_pages = 0 then
      match get_page pager 0 with
      | .error e => .error e
      | .ok (root_node, pager') =>
        let root_node := set_node_root (init_leaf_node root_node) true
        let T : Table := { root_page_num := 0, pager := pager' }
        .ok (putPage T 0 root_node)
    else
      .ok { root_page_num := 0, pager := pager }

/-! ## Cursor and search -/

structure Cursor where
  page_num : Nat
  cell_num : Nat
  end_of_table : Bool
  deriving Repr, DecidableEq

/-- table_start: reads page 0 (not the leftmost leaf) and interprets its
count field as a leaf cell count. -/
def table_start (T : Table) : Except Fatal (Cursor × Table) :=
  match getPageT T 0 with
  | .error e => .error e
  | .ok (node, T1) =>
    let num_cells := leaf_node_num_cells node
    .ok ({ page_num := 0, cell_num := 0, end_of_table := num_cells = 0 }, T1)

/-- The binary-search loop of internal_node_find_child
(`while left != right`).  The loop is only entered with left ≤ right,
under which the stopping guard is exactly left ≠ right.  The structural
fuel bounds the iteration count; every step shrinks right - left, so
any initial fuel ≥ right - left makes the fuel-exhausted branch
unreachable and the function agree with the source loop. -/
def internal_node_find_child_loop (m : Mem) (key : Nat) : Nat → Nat → Nat → Nat
  | fuel, l, r =>
    if r ≤ l then l
    else
      match fuel with
      | 0 => l
      | fuel + 1 =>
        let mid := (l + r) / 2
        let mid_key := internal_node_key_at m mid
        if key ≤ mid_key then internal_node_find_child_loop m key fuel l mid
        else internal_node_find_child_loop m key fuel (mid + 1) r

def internal_node_find_child (m : Mem) (key : Nat) : Nat :=
  internal_node_find_child_loop m key (internal_node_num_keys m) 0 (internal_node_num_keys m)

/-- The leaf binary-search loop of leaf_node_find, with its early return
on an exact key match; fuelled the same way as the internal loop. -/
def leaf_node_find_loop (m : Mem) (key : Nat) : Nat → Nat → Nat → Nat
  | fuel, mn, mx =>
    if mx ≤ mn then mn
    else
      match fuel with
      | 0 => mn
      | fuel + 1 =>
        let index := (mn + mx) / 2
        let key_at_index := leaf_node_key m index
        if key = key_at_index then index
        else if key < key_at_index then leaf_node_find_loop m key fuel mn index
        else leaf_node_find_loop m key fuel (index + 1) mx

def leaf_node_find (T : Table) (page_num : Nat) (key : Nat) : Except Fatal (Cursor × Table) :=
  match getPageT T page_num with
  | .error e => .error e
  | .ok (node, T1) =>
    let num_cells := leaf_node_num_cells node
    let cell_num := leaf_node_find_loop node key num_cells 0 num_cells
    .ok ({ page_num := page_num, cell_num := cell_num, end_of_table := false }, T1)

def internal_node_find (fuel : Nat) (T : Table) (page_num : Nat) (key : Nat) :
    Except Fatal (Cursor × Table) :=
  match fuel with
  | 0 => .error .fuelExhausted
  | fuel + 1 =>
    match getPageT T page_num with
    | .error e => .error e
    | .ok (node, T1) =>
      let child_index := internal_node_find_child node (key % 4294967296)
      match internal_node_child_get node child_index with
      | .error e => .error e
      | .ok child_page_num =>
        match getPageT T1 child_page_num with
        | .error e => .error e
        | .ok (child, T2) =>
          match get_node_type child with
          | .error e => .error e
          | .ok .leaf => leaf_node_find T2 child_page_num (key % 4294967296)
          | .ok .internal => internal_node_find fuel T2 child_page_num key

def table_find (fuel : Nat) (T : Table) (key : Nat) : Except Fatal (Cursor × Table) :=
  match getPageT T T.root_page_num with
  | .error e => .error e
  | .ok (root_node, T1) =>
    match get_node_type root_node with
    | .error e => .error e
    | .ok .leaf => leaf_node_find T1 T.root_page_num (key % 4294967296)
    | .ok .internal => internal_node_find fuel T1 T.root_page_num key

/-- get_node_max_key: last key of a leaf (reading cell num_cells - 1; on
an empty leaf the u32 index wraps and the slice access panics, modelled
as a fatal error), or recursively the max key of the right child of an
internal node. -/
def get_node_max_key (fuel : Nat) (p : Pager) (page_num : Nat) : Except Fatal (Nat × Pager) :=
  match fuel with
  | 0 => .error .fuelExhausted
  | fuel + 1 =>
    match get_page p page_num with
    | .error e => .error e
    | .ok (node, p1) =>
      match get_node_type node with
      | .error e => .error e
      | .ok .leaf =>
        let num_cells := leaf_node_num_cells node
        if num_cells = 0 then .error .emptyLeafMaxKey
        else .ok (leaf_node_key node (num_cells - 1), p1)
      | .ok .internal =>
        get_node_max_key fuel p1 (internal_node_right_child node)

/-- update_internal_node_key: find the cell via the old key and
overwrite that cell's key. -/
def update_internal_node_key (m : Mem) (old_key new_key : Nat) : Mem :=
  let child_index := internal_node_find_child m old_key
  set_internal_node_key m child_index new_key

/-! ## create_new_root -/

/-- The loop of create_new_root that redirects the copied internal
node's children to the new left child page. -/
def cnr_reparent_loop (T : Table) (left_child_page_num : Nat) :
    List Nat → Except Fatal Table
  | [] => .ok T
  | i :: rest => do
    let (left_child, T1) ← getPageT T left_child_page_num
    let child_page_num ← internal_node_child_get left_child i
    let (child, T2) ← getPageT T1 child_page_num
    let T3 := putPage T2 child_page_num (set_node_parent child left_child_page_num)
    cnr_reparent_loop T3 left_child_page_num rest

/-- create_new_root up to (and excluding) the computation of the left
child's max key: allocate the left child page, copy the old root's
bytes into it verbatim, clear its root flag, and (for an internal old
root) redirect the copied children's parent pointers. -/
def cnr_before_max (T_in : Table) (right_child_page_num : Nat) : Except Fatal Table := do
  let left_child_page_num := get_unused_page_num T_in.pager
  let (root, T1) ← getPageT T_in T_in.root_page_num
  let rt ← get_node_type root
  let root_is_internal : Bool := match rt with | .internal => true | .leaf => false
  let root_data := readRange root 0 PAGE_SIZE
  let T2 ←
    if root_is_internal then do
      let (rc, Ta) ← getPageT T1 right_child_page_num
      let Tb := putPage Ta right_child_page_num (init_internal_node rc)
      let (lc, Tc) ← getPageT Tb left_child_page_num
      pure (putPage Tc left_child_page_num (init_internal_node lc))
    else pure T1
  let (lc, T3) ← getPageT T2 left_child_page_num
  let lc2 := set_node_root (writeRange lc 0 PAGE_SIZE root_data) false
  let T4 := putPage T3 left_child_page_num lc2
  if root_is_internal then do
    let (lc3, T5) ← getPageT T4 left_child_page_num
    let num_keys := internal_node_num_keys lc3
    let right_page_num := internal_node_right_child lc3
    let T6 ← cnr_reparent_loop T5 left_child_page_num (List.range num_keys)
    if right_page_num ≠ INVALID_PAGE_NUM then do
      let (r, T7) ← getPageT T6 right_page_num
      pure (putPage T7 right_page_num (set_node_parent r left_child_page_num))
    else pure T6
  else pure T4

/-- create_new_root: relocate the old root's contents to a fresh left
child, then rewrite the root page (whose number never changes) as an
internal node over the left child and the supplied right child. -/
def create_new_root (fuel : Nat) (T : Table) (right_child_page_num : Nat) :
    Except Fatal Table := do
  let root_page_num := T.root_page_num
  let left_child_page_num := get_unused_page_num T.pager
  let Tmid ← cnr_before_max T right_child_page_num
  let (left_max_key, p) ← get_node_max_key fuel Tmid.pager left_child_page_num
  let T5 : Table := { Tmid with pager := p }
  let (root, T6) ← getPageT T5 root_page_num
  let root1 := set_internal_node_num_keys (set_node_root (init_internal_node root) true) 1
  let root2 ← internal_node_child_set root1 0 left_child_page_num
  let root3 :=
    set_internal_node_right_child (set_internal_node_key root2 0 left_max_key)
      right_child_page_num
  let T7 := putPage T6 root_page_num root3
  let (lc, T8) ← getPageT T7 left_child_page_num
  let T9 := putPage T8 left_child_page_num (set_node_parent lc root_page_num)
  let (rc, T10) ← getPageT T9 right_child_page_num
  pure (putPage T10 right_child_page_num (set_node_parent rc root_page_num))

/-! ## Internal node insertion and splitting (mutually recursive, fuelled) -/

/-- The cell-shifting loop of internal_node_insert, processed from the
highest index down: cell i+1 receives a copy of cell i. -/
def internal_shift_loop (m : Mem) : List Nat → Mem
  | [] => m
  | i :: rest =>
    internal_shift_loop (internal_node_cell_write m (i + 1) (internal_node_cell_read m i)) rest

/-- The collection pass of internal_node_split_and_insert: for each
index in the given (already reversed) range that is below num_keys,
record the index and that cell's child page number. -/
def collect_keys_to_move (m : Mem) (num_keys : Nat) :
    List Nat → Except Fatal (List (Nat × Nat))
  | [] => .ok []
  | i :: rest =>
    if i < num_keys then do
      let c ← internal_node_child_get m i
      let tail ← collect_keys_to_move m num_keys rest
      pure ((i, c) :: tail)
    else collect_keys_to_move m num_keys rest

/-- Call descriptor for the mutually recursive internal-node insertion
family (internal_node_insert, internal_node_split_and_insert, and the
move loop of the latter), which is compiled as one structurally
fuel-recursive function so that it reduces definitionally. -/
inductive ICall where
  | insert (parent_page_num child_page_num : Nat)
  | split (parent_page_num child_page_num : Nat)
  | moveLoop (new_page_num actual_old_page_num : Nat) (keys : List (Nat × Nat))

def internal_ops : Nat → Table → ICall → Except Fatal Table
  | 0, _, _ => .error .fuelExhausted
  | fuel + 1, T, .insert parent_page_num child_page_num => do
    let (child_max_key, p0) ← get_node_max_key (fuel + 1) T.pager child_page_num
    let T0 : Table := { T with pager := p0 }
    let (parent, T1) ← getPageT T0 parent_page_num
    let original_num_keys := internal_node_num_keys parent
    let right_child_page_num := internal_node_right_child parent
    if original_num_keys ≥ INTERNAL_NODE_MAX_CELLS then
      internal_ops fuel T1 (.split parent_page_num child_page_num)
    else if right_child_page_num = INVALID_PAGE_NUM then do
      let (parent2, T2) ← getPageT T1 parent_page_num
      pure (putPage T2 parent_page_num (set_internal_node_right_child parent2 child_page_num))
    else do
      let (parent2, T2) ← getPageT T1 parent_page_num
      let index := internal_node_find_child parent2 child_max_key
      let (right_max_key, p3) ← get_node_max_key (fuel + 1) T2.pager right_child_page_num
      let T3 : Table := { T2 with pager := p3 }
      let (parent3, T4) ← getPageT T3 parent_page_num
      let parent4 ←
        if child_max_key > right_max_key then do
          let pa ← internal_node_child_set parent3 original_num_keys right_child_page_num
          let pb := set_internal_node_key pa original_num_keys right_max_key
          pure (set_internal_node_right_child pb child_page_num)
        else do
          let pa :=
            internal_shift_loop parent3 (List.range' index (original_num_keys - index)).reverse
          let pb ← internal_node_child_set pa index child_page_num
          pure (set_internal_node_key pb index child_max_key)
      let parent5 := set_internal_node_num_keys parent4 (original_num_keys + 1)
      pure (putPage T4 parent_page_num parent5)
  | fuel + 1, T, .split parent_page_num child_page_num => do
    let old_page_num := parent_page_num
    let (old_max, pa) ← get_node_max_key (fuel + 1) T.pager parent_page_num
    let Ta : Table := { T with pager := pa }
    let (child_max, pb) ← get_node_max_key (fuel + 1) Ta.pager child_page_num
    let Tb : Table := { Ta with pager := pb }
    let new_page_num := get_unused_page_num Tb.pager
    let (old_node, Tc) ← getPageT Tb old_page_num
    let splitting_root := is_node_root old_node
    let (actual_old_page_num, parent_page_num2, Td) ←
      if splitting_root then do
        let T1 ← create_new_root (fuel + 1) Tc new_page_num
        let (parent, T2) ← getPageT T1 T1.root_page_num
        let left_child_page_num ← internal_node_child_get parent 0
        pure (left_child_page_num, T2.root_page_num, T2)
      else do
        let (new_node, T1) ← getPageT Tc new_page_num
        let T2 := putPage T1 new_page_num (init_internal_node new_node)
        let (old_node2, T3) ← getPageT T2 old_page_num
        pure (old_page_num, node_parent old_node2, T3)
    let (old_node3, Te) ← getPageT Td actual_old_page_num
    let cur_page_num := internal_node_right_child old_node3
    let Tf ← internal_ops fuel Te (.insert new_page_num cur_page_num)
    let (cur_child, Tg) ← getPageT Tf cur_page_num
    let Th := putPage Tg cur_page_num (set_node_parent cur_child new_page_num)
    let (old_node4, Ti) ← getPageT Th actual_old_page_num
    let Tj := putPage Ti actual_old_page_num (set_internal_node_right_child old_node4 INVALID_PAGE_NUM)
    let (old_node5, Tk) ← getPageT Tj actual_old_page_num
    let num_keys0 := internal_node_num_keys old_node5
    let keys_to_move ←
      collect_keys_to_move old_node5 num_keys0
        (List.range' (INTERNAL_NODE_MAX_CELLS / 2 + 1)
          (INTERNAL_NODE_MAX_CELLS - (INTERNAL_NODE_MAX_CELLS / 2 + 1))).reverse
    let Tl ← internal_ops fuel Tk (.moveLoop new_page_num actual_old_page_num keys_to_move)
    let (old_node6, Tm) ← getPageT Tl actual_old_page_num
    let num_keys1 := internal_node_num_keys old_node6
    let right_child_page_num ←
      if num_keys1 = 0 then .error .childNumTooBig
      else internal_node_child_get old_node6 (num_keys1 - 1)
    let old_node7 := set_internal_node_right_child old_node6 right_child_page_num
    let old_node8 := set_internal_node_num_keys old_node7 (num_keys1 - 1)
    let Tn := putPage Tm actual_old_page_num old_node8
    let (max_after_split, pc) ← get_node_max_key (fuel + 1) Tn.pager actual_old_page_num
    let To : Table := { Tn with pager := pc }
    let destination_page_num :=
      if child_max < max_after_split then actual_old_page_num else new_page_num
    let Tp ← internal_ops fuel To (.insert destination_page_num child_page_num)
    let (childm, Tq) ← getPageT Tp child_page_num
    let Tr := putPage Tq child_page_num (set_node_parent childm destination_page_num)
    let (new_old_max, pd) ← get_node_max_key (fuel + 1) Tr.pager actual_old_page_num
    let Ts : Table := { Tr with pager := pd }
    let (parentm, Tt) ← getPageT Ts parent_page_num2
    let Tu := putPage Tt parent_page_num2 (update_internal_node_key parentm old_max new_old_max)
    if splitting_root then pure Tu
    else do
      let (old_node9, Tv) ← getPageT Tu actual_old_page_num
      let parent_of_old := node_parent old_node9
      let Tw ← internal_ops fuel Tv (.insert parent_of_old new_page_num)
      let (new_node2, Tx) ← getPageT Tw new_page_num
      pure (putPage Tx new_page_num (set_node_parent new_node2 parent_of_old))
  | _ + 1, T, .moveLoop _ _ [] => .ok T
  | fuel + 1, T, .moveLoop new_page_num actual_old_page_num ((_, cpn) :: rest) => do
    let T1 ← internal_ops fuel T (.insert new_page_num cpn)
    let (child, T2) ← getPageT T1 cpn
    let T3 := putPage T2 cpn (set_node_parent child new_page_num)
    let (old_node, T4) ← getPageT T3 actual_old_page_num
    let nk := internal_node_num_keys old_node
    let T5 := putPage T4 actual_old_page_num (set_internal_node_num_keys old_node (nk - 1))
    internal_ops fuel T5 (.moveLoop new_page_num actual_old_page_num rest)

/-- internal_node_insert of the source. -/
def internal_node_insert (fuel : Nat) (T : Table) (parent_page_num child_page_num : Nat) :
    Except Fatal Table :=
  internal_ops fuel T (.insert parent_page_num child_page_num)

/-- internal_node_split_and_insert of the source. -/
def internal_node_split_and_insert (fuel : Nat) (T : Table)
    (parent_page_num child_page_num : Nat) : Except Fatal Table :=
  internal_ops fuel T (.split parent_page_num child_page_num)

/-! ## Leaf insertion and splitting -/

/-- The cell-gathering loop of leaf_node_split_and_insert: walk indices
0 .. LEAF_NODE_MAX_CELLS - 1, splicing the freshly serialized new cell
in at cursor.cell_num, then append the new cell if the insertion slot
is at or past the end. -/
def leaf_gather (old : Mem) (cell_num key : Nat) (row : Row) : List Nat :=
  let new_cell : Nat :=
    readRange (serialize_row row (writeRange 0 0 4 key) LEAF_NODE_KEY_SIZE)
      0 LEAF_NODE_CELL_SIZE
  let step := fun (acc : List Nat) (i : Nat) =>
    if i = cell_num then
      let acc1 := acc ++ [new_cell]
      if i < leaf_node_num_cells old then acc1 ++ [leaf_node_cell_read old i] else acc1
    else if i < leaf_node_num_cells old then acc ++ [leaf_node_cell_read old i]
    else acc
  let acc := (List.range LEAF_NODE_MAX_CELLS).foldl step []
  if cell_num ≥ leaf_node_num_cells old then acc ++ [new_cell] else acc

/-- Copy indices [0, LEAF_NODE_LEFT_SPLIT_COUNT) of the gathered cells
into the old page in place. -/
def leaf_copy_left (m : Mem) (all_cells : List Nat) : Mem :=
  (List.range LEAF_NODE_LEFT_SPLIT_COUNT).foldl
    (fun acc i =>
      if i < all_cells.length then leaf_node_cell_write acc i (all_cells.getD i 0) else acc)
    m

/-- Copy indices [LEAF_NODE_LEFT_SPLIT_COUNT, ..) of the gathered cells
into the new page. -/
def leaf_copy_right (m : Mem) (all_cells : List Nat) : Mem :=
  (List.range LEAF_NODE_RIGHT_SPLIT_COUNT).foldl
    (fun acc i =>
      let source_index := LEAF_NODE_LEFT_SPLIT_COUNT + i
      if source_index < all_cells.length then
        leaf_node_cell_write acc i (all_cells.getD source_index 0)
      else acc)
    m

/-- The split-and-distribute phase of leaf_node_split_and_insert
(everything before the root / parent fixup): allocate and initialize
the sibling leaf, link the leaf chain, gather the spliced cell
sequence, and distribute it across the two leaves.  Returns the new
page number together with the updated table. -/
def leaf_split_core (T : Table) (old_page_num cell_num key : Nat) (row : Row) :
    Except Fatal (Nat × Table) := do
  let new_page_num := get_unused_page_num T.pager
  let (old_node, T1) ← getPageT T old_page_num
  let old_next_leaf := leaf_node_next_leaf old_node
  let (new_node, T2) ← getPageT T1 new_page_num
  let T3 := putPage T2 new_page_num (set_leaf_node_next_leaf (init_leaf_node new_node) old_next_leaf)
  let (old_node2, T4) ← getPageT T3 old_page_num
  let parent_page_num := node_parent old_node2
  let (new_node2, T5) ← getPageT T4 new_page_num
  let T6 := putPage T5 new_page_num (set_node_parent new_node2 parent_page_num)
  let (old_node3, T7) ← getPageT T6 old_page_num
  let T8 := putPage T7 old_page_num (set_leaf_node_next_leaf old_node3 new_page_num)
  let (old_node4, T9) ← getPageT T8 old_page_num
  let all_cells := leaf_gather old_node4 cell_num key row
  let (old_node5, T10) ← getPageT T9 old_page_num
  let old_node6 := set_leaf_node_num_cells (leaf_copy_left old_node5 all_cells)
    LEAF_NODE_LEFT_SPLIT_COUNT
  let T11 := putPage T10 old_page_num old_node6
  let (new_node3, T12) ← getPageT T11 new_page_num
  let new_node4 := set_leaf_node_num_cells (leaf_copy_right new_node3 all_cells)
    LEAF_NODE_RIGHT_SPLIT_COUNT
  pure (new_page_num, putPage T12 new_page_num new_node4)

/-- leaf_node_split_and_insert: the split-and-distribute phase followed
by the root promotion or parent key maintenance. -/
def leaf_node_split_and_insert (fuel : Nat) (T : Table) (old_page_num cell_num key : Nat)
    (row : Row) : Except Fatal Table := do
  let (new_page_num, T1) ← leaf_split_core T old_page_num cell_num key row
  let (old_node, T2) ← getPageT T1 old_page_num
  if is_node_root old_node then
    create_new_root fuel T2 new_page_num
  else do
    let (old_max, p1) ← get_node_max_key fuel T2.pager old_page_num
    let T3 : Table := { T2 with pager := p1 }
    let (old_node2, T4) ← getPageT T3 old_page_num
    let parent_page_num := node_parent old_node2
    let (new_max, p2) ← get_node_max_key fuel T4.pager old_page_num
    let T5 : Table := { T4 with pager := p2 }
    let (parentm, T6) ← getPageT T5 parent_page_num
    let T7 := putPage T6 parent_page_num (update_internal_node_key parentm old_max new_max)
    internal_node_insert fuel T7 parent_page_num new_page_num

/-- The cell-shifting loop of leaf_node_insert, processed from the
highest index down: cell i receives a copy of cell i - 1. -/
def leaf_shift_loop (m : Mem) : List Nat → Mem
  | [] => m
  | i :: rest => leaf_shift_loop (leaf_node_cell_write m i (leaf_node_cell_read m (i - 1))) rest

/-- leaf_node_insert: split when the leaf is full, otherwise shift the
tail cells right by one and write the key and serialized row into the
cursor's slot. -/
def leaf_node_insert (fuel : Nat) (T : Table) (page_num cell_num key : Nat) (row : Row) :
    Except Fatal Table := do
  let (node, T1) ← getPageT T page_num
  let num_cells := leaf_node_num_cells node
  if num_cells ≥ LEAF_NODE_MAX_CELLS then
    leaf_node_split_and_insert fuel T1 page_num cell_num key row
  else
    let node1 :=
      if cell_num < num_cells then
        leaf_shift_loop node (List.range' (cell_num + 1) (num_cells - cell_num)).reverse
      else node
    let node2 := set_leaf_node_num_cells node1 (num_cells + 1)
    let node3 := writeRange node2 (leaf_node_cell_offset cell_num) 4 key
    let node4 := serialize_row row node3 (leaf_node_cell_offset cell_num + LEAF_NODE_KEY_SIZE)
    pure (putPage T1 page_num node4)

/-! ## Statement execution -/

inductive ExecuteResult where
  | success
  | tableFull
  | duplicateKey
  deriving Repr, DecidableEq

/-- execute_insert: a statement with no row yields TableFull; otherwise
find the insertion slot, report DuplicateKey when the slot holds the
key already, else perform the leaf insert. -/
def execute_insert (fuel : Nat) (T : Table) (row_to_insert : Option Row) :
    Except Fatal (ExecuteResult × Table) := do
  match row_to_insert with
  | none => pure (.tableFull, T)
  | some row =>
    let key_to_insert := row.id
    let (cursor, T1) ← table_find fuel T key_to_insert
    let (node, T2) ← getPageT T1 cursor.page_num
    let num_cells := leaf_node_num_cells node
    if cursor.cell_num < num_cells then
      let key_at_index := leaf_node_key node cursor.cell_num
      if key_at_index = key_to_insert % 4294967296 then pure (.duplicateKey, T2)
      else do
        let T3 ← leaf_node_insert fuel T2 cursor.page_num cursor.cell_num row.id row
        pure (.success, T3)
    else do
      let T3 ← leaf_node_insert fuel T2 cursor.page_num cursor.cell_num row.id row
      pure (.success, T3)

/-- Run a sequence of insert statements, collecting the results. -/
def run_inserts (fuel : Nat) (T : Table) : List Row → Except Fatal (List ExecuteResult × Table)
  | [] => .ok ([], T)
  | row :: rest =>
    match execute_insert fuel T (some row) with
    | .error e => .error e
    | .ok (r, T1) =>
      match run_inserts fuel T1 rest with
      | .error e => .error e
      | .ok (rs, T2) => .ok (r :: rs, T2)

/-- A freshly opened database over an empty file. -/
def db_open_fresh : Except Fatal Table := db_open 0 0

/-- Convenient constructor for insert statements: a row with the given
id, a username whose first byte is u0 (rest zero), and an all-zero
email. -/
def mkRow (id u0 : Nat) : Row :=
  { id := id, username := u0, email := 0 }

/-- The page cached in slot n (the all-zero empty page when the slot is
empty), used to state observations about a table. -/
def pageMem (T : Table) (n : Nat) : Mem := (T.pager.pages.getD n none).getD 0

/-- True exactly on an Ok outcome carrying ExecuteResult.tableFull. -/
def is_table_full_result : Except Fatal (ExecuteResult × Table) → Bool
  | .ok (.tableFull, _) => true
  | _ => false

/-- The keys of an internal node are strictly ascending (spec-side
hypothesis for the binary-search characterization). -/
def internal_keys_ascending (m : Mem) : Prop :=
  ∀ i, i < internal_node_num_keys m → ∀ j, j < i →
    internal_node_key_at m j < internal_node_key_at m i

instance (m : Mem) : Decidable (internal_keys_ascending m) :=
  decidable_of_iff
    (∀ i, i < internal_node_num_keys m → ∀ j, j < i →
      internal_node_key_at m j < internal_node_key_at m i) Iff.rfl

/-- The keys of a leaf node are strictly ascending. -/
def leaf_keys_ascending (m : Mem) : Prop :=
  ∀ i, i < leaf_node_num_cells m → ∀ j, j < i →
    leaf_node_key m j < leaf_node_key m i

instance (m : Mem) : Decidable (leaf_keys_ascending m) :=
  decidable_of_iff
    (∀ i, i < leaf_node_num_cells m → ∀ j, j < i →
      leaf_node_key m j < leaf_node_key m i) Iff.rfl

/-- The byte content of a fresh leaf cell as the spec describes it: the
4 little-endian key bytes followed by the 291 serialized row bytes. -/
def spec_cell_bytes (key : Nat) (row : Row) : Nat :=
  key % 256 ^ LEAF_NODE_KEY_SIZE +
    256 ^ LEAF_NODE_KEY_SIZE * readRange (serialize_row row 0 0) 0 ROW_SIZE

/-- The cells of a full leaf, as a list of cell byte values. -/
def leaf_cells_list (m : Mem) : List Nat :=
  (List.range LEAF_NODE_MAX_CELLS).map (leaf_node_cell_read m)

/-- The spec's conceptual sequence of max_leaf_cells + 1 cells: the full
leaf's existing cells with the new cell spliced in at cell_num. -/
def spliced_cells (m : Mem) (cell_num key : Nat) (row : Row) : List Nat :=
  (leaf_cells_list m).take cell_num ++ [spec_cell_bytes key row] ++
    (leaf_cells_list m).drop cell_num

/-! ## Concrete execution states

The definitions below are literal snapshots of the table after a fresh
open (chainT0) and after each statement of a 28-insert script (the keys
1..21 — with the first username byte of row 1 set to 2 — followed by
10, 11, 12, 13, 14, 0, 9).  Pages are written as writeRange chains over
their nonzero byte runs; identical pages are shared between states.
The theorems section proves, step by step, that the engine actually
produces these states, and then reads properties off them. -/

def pg0 : Mem :=
  writeRange (0) 0 2 257

def pg1 : Mem :=
  writeRange (writeRange (writeRange (writeRange (writeRange (0) 0 2 257) 6 1 1) 14 1 1) 18 1 1) 22 1 2

def pg2 : Mem :=
  writeRange (writeRange (writeRange (writeRange (writeRange (writeRange (writeRange (0) 0 2 257) 6 1 2) 14 1 1) 18 1 1) 22 1 2) 309 1 2) 313 1 2

def pg3 : Mem :=
  writeRange (writeRange (writeRange (writeRange (writeRange (writeRange (writeRange (writeRange (writeRange (0) 0 2 257) 6 1 3) 14 1 1) 18 1 1) 22 1 2) 309 1 2) 313 1 2) 604 1 3) 608 1 3

def pg4 : Mem :=
  writeRange (writeRange (writeRange (writeRange (writeRange (writeRange (writeRange (writeRange (writeRange (writeRange (writeRange (0) 0 2 257) 6 1 4) 14 1 1) 18 1 1) 22 1 2) 309 1 2) 313 1 2) 604 1 3) 608 1 3) 899 1 4) 903 1 4

def pg5 : Mem :=
  writeRange (writeRange (writeRange (writeRange (writeRange (writeRange (writeRange (writeRange (writeRange (writeRange (writeRange (writeRange (writeRange (0) 0 2 257) 6 1 5) 14 1 1) 18 1 1) 22 1 2) 309 1 2) 313 1 2) 604 1 3) 608 1 3) 899 1 4) 903 1 4) 1194 1 5) 1198 1 5

def pg6 : Mem :=
  writeRange (writeRange (writeRange (writeRange (writeRange (writeRange (writeRange (writeRange (writeRange (writeRange (writeRange (writeRange (writeRange (writeRange (writeRange (0) 0 2 257) 6 1 6) 14 1 1) 18 1 1) 22 1 2) 309 1 2) 313 1 2) 604 1 3) 608 1 3) 899 1 4) 903 1 4) 1194 1 5) 1198 1 5) 1489 1 6) 1493 1 6

def pg7 : Mem :=
  writeRange (writeRange (writeRange (writeRange (writeRange (writeRange (writeRange (writeRange (writeRange (writeRange (writeRange (writeRange (writeRange (writeRange (writeRange (writeRange (writeRange (0) 0 2 257) 6 1 7) 14 1 1) 18 1 1) 22 1 2) 309 1 2) 313 1 2) 604 1 3) 608 1 3) 899 1 4) 903 1 4) 1194 1 5) 1198 1 5) 1489 1 6) 1493 1 6) 1784 1 7) 1788 1 7

def pg8 : Mem :=
  writeRange (writeRange (writeRange (writeRange (writeRange (writeRange (writeRange (writeRange (writeRange (writeRange (writeRange (writeRange (writeRange (writeRange (writeRange (writeRange (writeRange (writeRange (writeRange (0) 0 2 257) 6 1 8) 14 1 1) 18 1 1) 22 1 2) 309 1 2) 313 1 2) 604 1 3) 608 1 3) 899 1 4) 903 1 4) 1194 1 5) 1198 1 5) 1489 1 6) 1493 1 6) 1784 1 7) 1788 1 7) 2079 1 8) 2083 1 8

def pg9 : Mem :=
  writeRange (writeRange (writeRange (writeRange (writeRange (writeRange (writeRange (writeRange (writeRange (writeRange (writeRange (writeRange (writeRange (writeRange (writeRange (writeRange (writeRange (writeRange (writeRange (writeRange (writeRange (0) 0 2 257) 6 1 9) 14 1 1) 18 1 1) 22 1 2) 309 1 2) 313 1 2) 604 1 3) 608 1 3) 899 1 4) 903 1 4) 1194 1 5) 1198 1 5) 1489 1 6) 1493 1 6) 1784 1 7) 1788 1 7) 2079 1 8) 2083 1 8) 2374 1 9) 2378 1 9

def pg10 : Mem :=
  writeRange (writeRange (writeRange (writeRange (writeRange (writeRange (writeRange (writeRange (writeRange (writeRange (writeRange (writeRange (writeRange (writeRange (writeRange (writeRange (writeRange (writeRange (writeRange (writeRange (writeRange (writeRange (writeRange (0) 0 2 257) 6 1 10) 14 1 1) 18 1 1) 22 1 2) 309 1 2) 313 1 2) 604 1 3) 608 1 3) 899 1 4) 903 1 4) 1194 1 5) 1198 1 5) 1489 1 6) 1493 1 6) 1784 1 7) 1788 1 7) 2079 1 8) 2083 1 8) 2374 1 9) 2378 1 9) 2669 1 10) 2673 1 10

def pg11 : Mem :=
  writeRange (writeRange (writeRange (writeRange (writeRange (writeRange (writeRange (writeRange (writeRange (writeRange (writeRange (writeRange (writeRange (writeRange (writeRange (writeRange (writeRange (writeRange (writeRange (writeRange (writeRange (writeRange (writeRange (writeRange (writeRange (0) 0 2 257) 6 1 11) 14 1 1) 18 1 1) 22 1 2) 309 1 2) 313 1 2) 604 1 3) 608 1 3) 899 1 4) 903 1 4) 1194 1 5) 1198 1 5) 1489 1 6) 1493 1 6) 1784 1 7) 1788 1 7) 2079 1 8) 2083 1 8) 2374 1 9) 2378 1 9) 2669 1 10) 2673 1 10) 2964 1 11) 2968 1 11

def pg12 : Mem :=
  writeRange (writeRange (writeRange (writeRange (writeRange (writeRange (writeRange (writeRange (writeRange (writeRange (writeRange (writeRange (writeRange (writeRange (writeRange (writeRange (writeRange (writeRange (writeRange (writeRange (writeRange (writeRange (writeRange (writeRange (writeRange (writeRange (writeRange (0) 0 2 257) 6 1 12) 14 1 1) 18 1 1) 22 1 2) 309 1 2) 313 1 2) 604 1 3) 608 1 3) 899 1 4) 903 1 4) 1194 1 5) 1198 1 5) 1489 1 6) 1493 1 6) 1784 1 7) 1788 1 7) 2079 1 8) 2083 1 8) 2374 1 9) 2378 1 9) 2669 1 10) 2673 1 10) 2964 1 11) 2968 1 11) 3259 1 12) 3263 1 12

def pg13 : Mem :=
  writeRange (writeRange (writeRange (writeRange (writeRange (writeRange (writeRange (writeRange (writeRange (writeRange (writeRange (writeRange (writeRange (writeRange (writeRange (writeRange (writeRange (writeRange (writeRange (writeRange (writeRange (writeRange (writeRange (writeRange (writeRange (writeRange (writeRange (writeRange (writeRange (0) 0 2 257) 6 1 13) 14 1 1) 18 1 1) 22 1 2) 309 1 2) 313 1 2) 604 1 3) 608 1 3) 899 1 4) 903 1 4) 1194 1 5) 1198 1 5) 1489 1 6) 1493 1 6) 1784 1 7) 1788 1 7) 2079 1 8) 2083 1 8) 2374 1 9) 2378 1 9) 2669 1 10) 2673 1 10) 2964 1 11) 2968 1 11) 3259 1 12) 3263 1 12) 3554 1 13) 3558 1 13

def pg14 : Mem :=
  writeRange (writeRange (writeRange (writeRange (writeRange (writeRange (writeRange (writeRange (writeRange (writeRange (writeRange (writeRange (writeRange (writeRange (writeRange (writeRange (writeRange (writeRange (writeRange (writeRange (writeRange (writeRange (writeRange (writeRange (writeRange (writeRange (writeRange (writeRange (writeRange (writeRange (0) 1 1 1) 6 1 1) 10 1 1) 14 1 2) 18 1 7) 22 1 2) 309 1 2) 313 1 2) 604 1 3) 608 1 3) 899 1 4) 903 1 4) 1194 1 5) 1198 1 5) 1489 1 6) 1493 1 6) 1784 1 7) 1788 1 7) 2079 1 8) 2083 1 8) 2374 1 9) 2378 1 9) 2669 1 10) 2673 1 10) 2964 1 11) 2968 1 11) 3259 1 12) 3263 1 12) 3554 1 13) 3558 1 13

def pg15 : Mem :=
  writeRange (writeRange (writeRange (writeRange (writeRange (writeRange (writeRange (writeRange (writeRange (writeRange (writeRange (writeRange (writeRange (writeRange (writeRange (writeRange (0) 0 1 1) 6 1 7) 14 1 8) 18 1 8) 309 1 9) 313 1 9) 604 1 10) 608 1 10) 899 1 11) 903 1 11) 1194 1 12) 1198 1 12) 1489 1 13) 1493 1 13) 1784 1 14) 1788 1 14

def pg16 : Mem :=
  writeRange (writeRange (writeRange (writeRange (writeRange (writeRange (writeRange (writeRange (writeRange (writeRange (writeRange (writeRange (writeRange (writeRange (writeRange (writeRange (writeRange (writeRange (writeRange (writeRange (writeRange (writeRange (writeRange (writeRange (writeRange (writeRange (writeRange (writeRange (writeRange (writeRange (0) 0 1 1) 6 1 7) 10 1 1) 14 1 1) 18 1 1) 22 1 2) 309 1 2) 313 1 2) 604 1 3) 608 1 3) 899 1 4) 903 1 4) 1194 1 5) 1198 1 5) 1489 1 6) 1493 1 6) 1784 1 7) 1788 1 7) 2079 1 8) 2083 1 8) 2374 1 9) 2378 1 9) 2669 1 10) 2673 1 10) 2964 1 11) 2968 1 11) 3259 1 12) 3263 1 12) 3554 1 13) 3558 1 13

def pg17 : Mem :=
  writeRange (writeRange (writeRange (writeRange (writeRange (writeRange (writeRange (writeRange (writeRange (writeRange (writeRange (writeRange (writeRange (writeRange (writeRange (writeRange (writeRange (writeRange (0) 0 1 1) 6 1 8) 14 1 8) 18 1 8) 309 1 9) 313 1 9) 604 1 10) 608 1 10) 899 1 11) 903 1 11) 1194 1 12) 1198 1 12) 1489 1 13) 1493 1 13) 1784 1 14) 1788 1 14) 2079 1 15) 2083 1 15

def pg18 : Mem :=
  writeRange (writeRange (writeRange (writeRange (writeRange (writeRange (writeRange (writeRange (writeRange (writeRange (writeRange (writeRange (writeRange (writeRange (writeRange (writeRange (writeRange (writeRange (writeRange (writeRange (0) 0 1 1) 6 1 9) 14 1 8) 18 1 8) 309 1 9) 313 1 9) 604 1 10) 608 1 10) 899 1 11) 903 1 11) 1194 1 12) 1198 1 12) 1489 1 13) 1493 1 13) 1784 1 14) 1788 1 14) 2079 1 15) 2083 1 15) 2374 1 16) 2378 1 16

def pg19 : Mem :=
  writeRange (writeRange (writeRange (writeRange (writeRange (writeRange (writeRange (writeRange (writeRange (writeRange (writeRange (writeRange (writeRange (writeRange (writeRange (writeRange (writeRange (writeRange (writeRange (writeRange (writeRange (writeRange (0) 0 1 1) 6 1 10) 14 1 8) 18 1 8) 309 1 9) 313 1 9) 604 1 10) 608 1 10) 899 1 11) 903 1 11) 1194 1 12) 1198 1 12) 1489 1 13) 1493 1 13) 1784 1 14) 1788 1 14) 2079 1 15) 2083 1 15) 2374 1 16) 2378 1 16) 2669 1 17) 2673 1 17

def pg20 : Mem :=
  writeRange (writeRange (writeRange (writeRange (writeRange (writeRange (writeRange (writeRange (writeRange (writeRange (writeRange (writeRange (writeRange (writeRange (writeRange (writeRange (writeRange (writeRange (writeRange (writeRange (writeRange (writeRange (writeRange (writeRange (0) 0 1 1) 6 1 11) 14 1 8) 18 1 8) 309 1 9) 313 1 9) 604 1 10) 608 1 10) 899 1 11) 903 1 11) 1194 1 12) 1198 1 12) 1489 1 13) 1493 1 13) 1784 1 14) 1788 1 14) 2079 1 15) 2083 1 15) 2374 1 16) 2378 1 16) 2669 1 17) 2673 1 17) 2964 1 18) 2968 1 18

def pg21 : Mem :=
  writeRange (writeRange (writeRange (writeRange (writeRange (writeRange (writeRange (writeRange (writeRange (writeRange (writeRange (writeRange (writeRange (writeRange (writeRange (writeRange (writeRange (writeRange (writeRange (writeRange (writeRange (writeRange (writeRange (writeRange (writeRange (writeRange (0) 0 1 1) 6 1 12) 14 1 8) 18 1 8) 309 1 9) 313 1 9) 604 1 10) 608 1 10) 899 1 11) 903 1 11) 1194 1 12) 1198 1 12) 1489 1 13) 1493 1 13) 1784 1 14) 1788 1 14) 2079 1 15) 2083 1 15) 2374 1 16) 2378 1 16) 2669 1 17) 2673 1 17) 2964 1 18) 2968 1 18) 3259 1 19) 3263 1 19

def pg22 : Mem :=
  writeRange (writeRange (writeRange (writeRange (writeRange (writeRange (writeRange (writeRange (writeRange (writeRange (writeRange (writeRange (writeRange (writeRange (writeRange (writeRange (writeRange (writeRange (writeRange (writeRange (writeRange (writeRange (writeRange (writeRange (writeRange (writeRange (writeRange (writeRange (0) 0 1 1) 6 1 13) 14 1 8) 18 1 8) 309 1 9) 313 1 9) 604 1 10) 608 1 10) 899 1 11) 903 1 11) 1194 1 12) 1198 1 12) 1489 1 13) 1493 1 13) 1784 1 14) 1788 1 14) 2079 1 15) 2083 1 15) 2374 1 16) 2378 1 16) 2669 1 17) 2673 1 17) 2964 1 18) 2968 1 18) 3259 1 19) 3263 1 19) 3554 1 20) 3558 1 20

def pg23 : Mem :=
  writeRange (writeRange (writeRange (writeRange (writeRange (writeRange (writeRange (writeRange (writeRange (writeRange (writeRange (writeRange (writeRange (writeRange (writeRange (writeRange (writeRange (writeRange (writeRange (writeRange (writeRange (writeRange (writeRange (writeRange (writeRange (writeRange (writeRange (writeRange (writeRange (writeRange (writeRange (0) 1 1 1) 6 1 2) 10 1 3) 14 1 2) 18 1 7) 22 1 2) 26 1 14) 309 1 2) 313 1 2) 604 1 3) 608 1 3) 899 1 4) 903 1 4) 1194 1 5) 1198 1 5) 1489 1 6) 1493 1 6) 1784 1 7) 1788 1 7) 2079 1 8) 2083 1 8) 2374 1 9) 2378 1 9) 2669 1 10) 2673 1 10) 2964 1 11) 2968 1 11) 3259 1 12) 3263 1 12) 3554 1 13) 3558 1 13

def pg24 : Mem :=
  writeRange (writeRange (writeRange (writeRange (writeRange (writeRange (writeRange (writeRange (writeRange (writeRange (writeRange (writeRange (writeRange (writeRange (writeRange (writeRange (writeRange (writeRange (writeRange (writeRange (writeRange (writeRange (writeRange (writeRange (writeRange (writeRange (writeRange (writeRange (writeRange (0) 0 1 1) 6 1 7) 10 1 3) 14 1 8) 18 1 8) 309 1 9) 313 1 9) 604 1 10) 608 1 10) 899 1 11) 903 1 11) 1194 1 12) 1198 1 12) 1489 1 13) 1493 1 13) 1784 1 14) 1788 1 14) 2079 1 15) 2083 1 15) 2374 1 16) 2378 1 16) 2669 1 17) 2673 1 17) 2964 1 18) 2968 1 18) 3259 1 19) 3263 1 19) 3554 1 20) 3558 1 20

def pg25 : Mem :=
  writeRange (writeRange (writeRange (writeRange (writeRange (writeRange (writeRange (writeRange (writeRange (writeRange (writeRange (writeRange (writeRange (writeRange (writeRange (writeRange (0) 0 1 1) 6 1 7) 14 1 15) 18 1 15) 309 1 16) 313 1 16) 604 1 17) 608 1 17) 899 1 18) 903 1 18) 1194 1 19) 1198 1 19) 1489 1 20) 1493 1 20) 1784 1 21) 1788 1 21

def pg26 : Mem :=
  writeRange (writeRange (writeRange (writeRange (writeRange (writeRange (writeRange (writeRange (writeRange (writeRange (writeRange (writeRange (writeRange (writeRange (writeRange (writeRange (writeRange (writeRange (writeRange (writeRange (writeRange (writeRange (writeRange (writeRange (writeRange (writeRange (writeRange (writeRange (writeRange (writeRange (0) 0 1 1) 6 1 8) 10 1 1) 14 1 1) 18 1 1) 22 1 2) 309 1 2) 313 1 2) 604 1 3) 608 1 3) 899 1 4) 903 1 4) 1194 1 5) 1198 1 5) 1489 1 6) 1493 1 6) 1784 1 7) 1788 1 7) 2079 1 10) 2083 1 10) 2374 1 9) 2378 1 9) 2669 1 10) 2673 1 10) 2964 1 11) 2968 1 11) 3259 1 12) 3263 1 12) 3554 1 13) 3558 1 13

def pg27 : Mem :=
  writeRange (writeRange (writeRange (writeRange (writeRange (writeRange (writeRange (writeRange (writeRange (writeRange (writeRange (writeRange (writeRange (writeRange (writeRange (writeRange (writeRange (writeRange (writeRange (writeRange (writeRange (writeRange (writeRange (writeRange (writeRange (writeRange (writeRange (writeRange (writeRange (writeRange (0) 0 1 1) 6 1 9) 10 1 1) 14 1 1) 18 1 1) 22 1 2) 309 1 2) 313 1 2) 604 1 3) 608 1 3) 899 1 4) 903 1 4) 1194 1 5) 1198 1 5) 1489 1 6) 1493 1 6) 1784 1 7) 1788 1 7) 2079 1 10) 2083 1 10) 2374 1 11) 2378 1 11) 2669 1 10) 2673 1 10) 2964 1 11) 2968 1 11) 3259 1 12) 3263 1 12) 3554 1 13) 3558 1 13

def pg28 : Mem :=
  writeRange (writeRange (writeRange (writeRange (writeRange (writeRange (writeRange (writeRange (writeRange (writeRange (writeRange (writeRange (writeRange (writeRange (writeRange (writeRange (writeRange (writeRange (writeRange (writeRange (writeRange (writeRange (writeRange (writeRange (writeRange (writeRange (writeRange (writeRange (writeRange (writeRange (0) 0 1 1) 6 1 10) 10 1 1) 14 1 1) 18 1 1) 22 1 2) 309 1 2) 313 1 2) 604 1 3) 608 1 3) 899 1 4) 903 1 4) 1194 1 5) 1198 1 5) 1489 1 6) 1493 1 6) 1784 1 7) 1788 1 7) 2079 1 10) 2083 1 10) 2374 1 11) 2378 1 11) 2669 1 12) 2673 1 12) 2964 1 11) 2968 1 11) 3259 1 12) 3263 1 12) 3554 1 13) 3558 1 13

def pg29 : Mem :=
  writeRange (writeRange (writeRange (writeRange (writeRange (writeRange (writeRange (writeRange (writeRange (writeRange (writeRange (writeRange (writeRange (writeRange (writeRange (writeRange (writeRange (writeRange (writeRange (writeRange (writeRange (writeRange (writeRange (writeRange (writeRange (writeRange (writeRange (writeRange (writeRange (writeRange (0) 0 1 1) 6 1 11) 10 1 1) 14 1 1) 18 1 1) 22 1 2) 309 1 2) 313 1 2) 604 1 3) 608 1 3) 899 1 4) 903 1 4) 1194 1 5) 1198 1 5) 1489 1 6) 1493 1 6) 1784 1 7) 1788 1 7) 2079 1 10) 2083 1 10) 2374 1 11) 2378 1 11) 2669 1 12) 2673 1 12) 2964 1 13) 2968 1 13) 3259 1 12) 3263 1 12) 3554 1 13) 3558 1 13

def pg30 : Mem :=
  writeRange (writeRange (writeRange (writeRange (writeRange (writeRange (writeRange (writeRange (writeRange (writeRange (writeRange (writeRange (writeRange (writeRange (writeRange (writeRange (writeRange (writeRange (writeRange (writeRange (writeRange (writeRange (writeRange (writeRange (writeRange (writeRange (writeRange (writeRange (writeRange (writeRange (0) 0 1 1) 6 1 12) 10 1 1) 14 1 1) 18 1 1) 22 1 2) 309 1 2) 313 1 2) 604 1 3) 608 1 3) 899 1 4) 903 1 4) 1194 1 5) 1198 1 5) 1489 1 6) 1493 1 6) 1784 1 7) 1788 1 7) 2079 1 10) 2083 1 10) 2374 1 11) 2378 1 11) 2669 1 12) 2673 1 12) 2964 1 13) 2968 1 13) 3259 1 14) 3263 1 14) 3554 1 13) 3558 1 13

def pg31 : Mem :=
  writeRange (writeRange (writeRange (writeRange (writeRange (writeRange (writeRange (writeRange (writeRange (writeRange (writeRange (writeRange (writeRange (writeRange (writeRange (writeRange (writeRange (writeRange (writeRange (writeRange (writeRange (writeRange (writeRange (writeRange (writeRange (writeRange (writeRange (writeRange (0) 0 1 1) 6 1 13) 10 1 1) 309 1 1) 313 1 1) 317 1 2) 604 1 2) 608 1 2) 899 1 3) 903 1 3) 1194 1 4) 1198 1 4) 1489 1 5) 1493 1 5) 1784 1 6) 1788 1 6) 2079 1 7) 2083 1 7) 2374 1 10) 2378 1 10) 2669 1 11) 2673 1 11) 2964 1 12) 2968 1 12) 3259 1 13) 3263 1 13) 3554 1 14) 3558 1 14

def pg32 : Mem :=
  writeRange (writeRange (writeRange (writeRange (writeRange (writeRange (writeRange (writeRange (writeRange (writeRange (writeRange (writeRange (writeRange (writeRange (writeRange (writeRange (writeRange (writeRange (writeRange (writeRange (writeRange (writeRange (writeRange (writeRange (writeRange (writeRange (writeRange (writeRange (writeRange (writeRange (writeRange (writeRange (writeRange (0) 1 1 1) 6 1 3) 10 1 3) 14 1 2) 18 1 6) 22 1 4) 26 1 14) 30 1 2) 34 1 14) 309 1 2) 313 1 2) 604 1 3) 608 1 3) 899 1 4) 903 1 4) 1194 1 5) 1198 1 5) 1489 1 6) 1493 1 6) 1784 1 7) 1788 1 7) 2079 1 8) 2083 1 8) 2374 1 9) 2378 1 9) 2669 1 10) 2673 1 10) 2964 1 11) 2968 1 11) 3259 1 12) 3263 1 12) 3554 1 13) 3558 1 13

def pg33 : Mem :=
  writeRange (writeRange (writeRange (writeRange (writeRange (writeRange (writeRange (writeRange (writeRange (writeRange (writeRange (writeRange (writeRange (writeRange (writeRange (writeRange (writeRange (writeRange (writeRange (writeRange (writeRange (writeRange (writeRange (writeRange (writeRange (writeRange (writeRange (writeRange (0) 0 1 1) 6 1 7) 10 1 4) 309 1 1) 313 1 1) 317 1 2) 604 1 2) 608 1 2) 899 1 3) 903 1 3) 1194 1 4) 1198 1 4) 1489 1 5) 1493 1 5) 1784 1 6) 1788 1 6) 2079 1 7) 2083 1 7) 2374 1 10) 2378 1 10) 2669 1 11) 2673 1 11) 2964 1 12) 2968 1 12) 3259 1 13) 3263 1 13) 3554 1 14) 3558 1 14

def pg34 : Mem :=
  writeRange (writeRange (writeRange (writeRange (writeRange (writeRange (writeRange (writeRange (writeRange (writeRange (writeRange (writeRange (writeRange (writeRange (writeRange (writeRange (writeRange (0) 0 1 1) 6 1 7) 10 1 1) 14 1 7) 18 1 7) 309 1 9) 313 1 9) 604 1 10) 608 1 10) 899 1 11) 903 1 11) 1194 1 12) 1198 1 12) 1489 1 13) 1493 1 13) 1784 1 14) 1788 1 14

def chainT0 : Table :=
  { root_page_num := 0,
    pager :=
      { file := 0, file_length := 0, num_pages := 1,
        pages := [some pg0] ++ List.replicate 99 none } }

def chainT1 : Table :=
  { root_page_num := 0,
    pager :=
      { file := 0, file_length := 0, num_pages := 1,
        pages := [some pg1] ++ List.replicate 99 none } }

def chainT2 : Table :=
  { root_page_num := 0,
    pager :=
      { file := 0, file_length := 0, num_pages := 1,
        pages := [some pg2] ++ List.replicate 99 none } }

def chainT3 : Table :=
  { root_page_num := 0,
    pager :=
      { file := 0, file_length := 0, num_pages := 1,
        pages := [some pg3] ++ List.replicate 99 none } }

def chainT4 : Table :=
  { root_page_num := 0,
    pager :=
      { file := 0, file_length := 0, num_pages := 1,
        pages := [some pg4] ++ List.replicate 99 none } }

def chainT5 : Table :=
  { root_page_num := 0,
    pager :=
      { file := 0, file_length := 0, num_pages := 1,
        pages := [some pg5] ++ List.replicate 99 none } }

def chainT6 : Table :=
  { root_page_num := 0,
    pager :=
      { file := 0, file_length := 0, num_pages := 1,
        pages := [some pg6] ++ List.replicate 99 none } }

def chainT7 : Table :=
  { root_page_num := 0,
    pager :=
      { file := 0, file_length := 0, num_pages := 1,
        pages := [some pg7] ++ List.replicate 99 none } }

def chainT8 : Table :=
  { root_page_num := 0,
    pager :=
      { file := 0, file_length := 0, num_pages := 1,
        pages := [some pg8] ++ List.replicate 99 none } }

def chainT9 : Table :=
  { root_page_num := 0,
    pager :=
      { file := 0, file_length := 0, num_pages := 1,
        pages := [some pg9] ++ List.replicate 99 none } }

def chainT10 : Table :=
  { root_page_num := 0,
    pager :=
      { file := 0, file_length := 0, num_pages := 1,
        pages := [some pg10] ++ List.replicate 99 none } }

def chainT11 : Table :=
  { root_page_num := 0,
    pager :=
      { file := 0, file_length := 0, num_pages := 1,
        pages := [some pg11] ++ List.replicate 99 none } }

def chainT12 : Table :=
  { root_page_num := 0,
    pager :=
      { file := 0, file_length := 0, num_pages := 1,
        pages := [some pg12] ++ List.replicate 99 none } }

def chainT13 : Table :=
  { root_page_num := 0,
    pager :=
      { file := 0, file_length := 0, num_pages := 1,
        pages := [some pg13] ++ List.replicate 99 none } }

def chainT14 : Table :=
  { root_page_num := 0,
    pager :=
      { file := 0, file_length := 0, num_pages := 3,
        pages := [some pg14, some pg15, some pg16] ++ List.replicate 97 none } }

def chainT15 : Table :=
  { root_page_num := 0,
    pager :=
      { file := 0, file_length := 0, num_pages := 3,
        pages := [some pg14, some pg17, some pg16] ++ List.replicate 97 none } }

def chainT16 : Table :=
  { root_page_num := 0,
    pager :=
      { file := 0, file_length := 0, num_pages := 3,
        pages := [some pg14, some pg18, some pg16] ++ List.replicate 97 none } }

def chainT17 : Table :=
  { root_page_num := 0,
    pager :=
      { file := 0, file_length := 0, num_pages := 3,
        pages := [some pg14, some pg19, some pg16] ++ List.replicate 97 none } }

def chainT18 : Table :=
  { root_page_num := 0,
    pager :=
      { file := 0, file_length := 0, num_pages := 3,
        pages := [some pg14, some pg20, some pg16] ++ List.replicate 97 none } }

def chainT19 : Table :=
  { root_page_num := 0,
    pager :=
      { file := 0, file_length := 0, num_pages := 3,
        pages := [some pg14, some pg21, some pg16] ++ List.replicate 97 none } }

def chainT20 : Table :=
  { root_page_num := 0,
    pager :=
      { file := 0, file_length := 0, num_pages := 3,
        pages := [some pg14, some pg22, some pg16] ++ List.replicate 97 none } }

def chainT21 : Table :=
  { root_page_num := 0,
    pager :=
      { file := 0, file_length := 0, num_pages := 4,
        pages := [some pg23, some pg24, some pg16, some pg25] ++ List.replicate 96 none } }

def chainT22 : Table :=
  { root_page_num := 0,
    pager :=
      { file := 0, file_length := 0, num_pages := 4,
        pages := [some pg23, some pg24, some pg26, some pg25] ++ List.replicate 96 none } }

def chainT23 : Table :=
  { root_page_num := 0,
    pager :=
      { file := 0, file_length := 0, num_pages := 4,
        pages := [some pg23, some pg24, some pg27, some pg25] ++ List.replicate 96 none } }

def chainT24 : Table :=
  { root_page_num := 0,
    pager :=
      { file := 0, file_length := 0, num_pages := 4,
        pages := [some pg23, some pg24, some pg28, some pg25] ++ List.replicate 96 none } }

def chainT25 : Table :=
  { root_page_num := 0,
    pager :=
      { file := 0, file_length := 0, num_pages := 4,
        pages := [some pg23, some pg24, some pg29, some pg25] ++ List.replicate 96 none } }

def chainT26 : Table :=
  { root_page_num := 0,
    pager :=
      { file := 0, file_length := 0, num_pages := 4,
        pages := [some pg23, some pg24, some pg30, some pg25] ++ List.replicate 96 none } }

def chainT27 : Table :=
  { root_page_num := 0,
    pager :=
      { file := 0, file_length := 0, num_pages := 4,
        pages := [some pg23, some pg24, some pg31, some pg25] ++ List.replicate 96 none } }

def chainT28 : Table :=
  { root_page_num := 0,
    pager :=
      { file := 0, file_length := 0, num_pages := 5,
        pages := [some pg32, some pg24, some pg33, some pg25, some pg34] ++ List.replicate 95 none } }

/-- The 28-statement insert script driving the concrete execution chain. -/
def chain_rows : List Row :=
  ((List.range 21).map (fun i => mkRow (i + 1) (if i = 0 then 2 else 0))) ++
    [mkRow 10 0, mkRow 11 0, mkRow 12 0, mkRow 13 0, mkRow 14 0, mkRow 0 0, mkRow 9 0]

/-- A table whose root page 0 is the full 13-cell leaf of chainT13 but
whose pager has already handed out all TABLE_MAX_PAGES page numbers, so
that serving the next insert requires allocating page number 100. -/
def tableFullState : Table :=
  { chainT13 with pager := { chainT13.pager with num_pages := TABLE_MAX_PAGES } }

/-- A table about to promote its root: page 0 is the full leaf of
chainT13, page 1 stands for the freshly made right sibling, and page 2
is the next unused page number. -/
def cnrT : Table :=
  { root_page_num := 0,
    pager :=
      { file := 0, file_length := 0, num_pages := 2,
        pages := [some pg13, some pg0] ++ List.replicate 98 none } }

/-! ## Theorems

First the concrete execution chain: the engine, started on a fresh
database, reaches exactly the literal states defined above. -/

set_option exponentiation.threshold 100000

set_option exponentiation.threshold 100000

/-- Reading back a just-written slice yields the written value (reduced
to the slice width). -/
theorem readRange_writeRange_self (m v off len : Nat) :
    readRange (writeRange m off len v) off len = v % 256 ^ len := by
  unfold readRange writeRange
  have hB : 0 < 256 ^ off := pow_pos (by norm_num) off
  have hmB : m % 256 ^ off < 256 ^ off := Nat.mod_lt _ hB
  rw [pow_add]
  have h1 : m % 256 ^ off + v % 256 ^ len * 256 ^ off +
      m / (256 ^ off * 256 ^ len) * (256 ^ off * 256 ^ len) =
      m % 256 ^ off + 256 ^ off * (v % 256 ^ len + m / (256 ^ off * 256 ^ len) * 256 ^ len) := by
    ring
  rw [h1, Nat.add_mul_div_left _ _ hB, Nat.div_eq_of_lt hmB, Nat.zero_add,
    Nat.add_mul_mod_self_right, Nat.mod_mod_of_dvd _ dvd_rfl]

/-- A write leaves every byte slice strictly below it unchanged. -/
theorem readRange_writeRange_below (m v off len off2 len2 : Nat)
    (h : off2 + len2 ≤ off) :
    readRange (writeRange m off len v) off2 len2 = readRange m off2 len2 := by
  have key : ∀ x : Mem, x / 256 ^ off2 % 256 ^ len2 = x % 256 ^ (off2 + len2) / 256 ^ off2 := by
    intro x
    rw [pow_add, Nat.mod_mul_right_div_self]
  show (writeRange m off len v) / 256 ^ off2 % 256 ^ len2 = m / 256 ^ off2 % 256 ^ len2
  rw [key, key]
  congr 1
  obtain ⟨t, ht⟩ : (256 : Nat) ^ (off2 + len2) ∣ 256 ^ off := pow_dvd_pow _ h
  obtain ⟨u, hu⟩ : (256 : Nat) ^ (off2 + len2) ∣ 256 ^ (off + len) :=
    pow_dvd_pow _ (le_trans h (Nat.le_add_right _ _))
  unfold writeRange
  calc (m % 256 ^ off + v % 256 ^ len * 256 ^ off +
        m / 256 ^ (off + len) * 256 ^ (off + len)) % 256 ^ (off2 + len2)
      = (m % 256 ^ off +
          (v % 256 ^ len * t + m / 256 ^ (off + len) * u) * 256 ^ (off2 + len2)) %
          256 ^ (off2 + len2) := by
        rw [ht, hu]; ring_nf
    _ = m % 256 ^ off % 256 ^ (off2 + len2) := by rw [Nat.add_mul_mod_self_right]
    _ = m % 256 ^ (off2 + len2) := Nat.mod_mod_of_dvd m (ht ▸ Dvd.intro t rfl)

/-- A write leaves every byte slice strictly above it unchanged. -/
theorem readRange_writeRange_above (m v off len off2 len2 : Nat)
    (h : off + len ≤ off2) :
    readRange (writeRange m off len v) off2 len2 = readRange m off2 len2 := by
  have hD : 0 < 256 ^ (off + len) := pow_pos (by norm_num) _
  have hdiv : (writeRange m off len v) / 256 ^ (off + len) = m / 256 ^ (off + len) := by
    unfold writeRange
    have hr : m % 256 ^ off + v % 256 ^ len * 256 ^ off < 256 ^ (off + len) := by
      have h1 : m % 256 ^ off < 256 ^ off := Nat.mod_lt _ (pow_pos (by norm_num) off)
      have h2 : v % 256 ^ len < 256 ^ len := Nat.mod_lt _ (pow_pos (by norm_num) len)
      have h3 : v % 256 ^ len * 256 ^ off ≤ (256 ^ len - 1) * 256 ^ off :=
        Nat.mul_le_mul_right _ (by omega)
      rw [pow_add]
      have h4 : 0 < 256 ^ len := pow_pos (by norm_num) len
      have h5 : (256 ^ len - 1) * 256 ^ off + 256 ^ off = 256 ^ off * 256 ^ len := by
        calc (256 ^ len - 1) * 256 ^ off + 256 ^ off
            = (256 ^ len - 1 + 1) * 256 ^ off := by ring
          _ = 256 ^ len * 256 ^ off := by rw [Nat.sub_add_cancel h4]
          _ = 256 ^ off * 256 ^ len := by ring
      omega
    have h6 : m % 256 ^ off + v % 256 ^ len * 256 ^ off +
        m / 256 ^ (off + len) * 256 ^ (off + len) =
        m % 256 ^ off + v % 256 ^ len * 256 ^ off +
          256 ^ (off + len) * (m / 256 ^ (off + len)) := by ring
    rw [h6, Nat.add_mul_div_left _ _ hD, Nat.div_eq_of_lt hr, Nat.zero_add]
  show (writeRange m off len v) / 256 ^ off2 % 256 ^ len2 = m / 256 ^ off2 % 256 ^ len2
  have hsplit : ∀ x : Mem, x / 256 ^ off2 = x / 256 ^ (off + len) / 256 ^ (off2 - (off + len)) := by
    intro x
    rw [Nat.div_div_eq_div_mul, ← pow_add]
    congr 2
    omega
  rw [hsplit, hsplit, hdiv]

/-- Reading a sub-slice of an extracted slice is reading at the summed
offset. -/
theorem readRange_readRange (m a la b lb : Nat) (h : b + lb ≤ la) :
    readRange (readRange m a la) b lb = readRange m (a + b) lb := by
  unfold readRange
  have h1 : (256 : Nat) ^ la = 256 ^ b * 256 ^ (la - b) := by
    rw [← pow_add]
    congr 1
    omega
  rw [h1, Nat.mod_mul_right_div_self, Nat.div_div_eq_div_mul, ← pow_add]
  exact Nat.mod_mod_of_dvd _ (pow_dvd_pow _ (by omega))

theorem readRange_zero_off (m n : Nat) : readRange m 0 n = m % 256 ^ n := by
  unfold readRange
  rw [pow_zero, Nat.div_one]

theorem writeRange_zero_full (n v : Nat) : writeRange 0 0 n v = v % 256 ^ n := by
  unfold writeRange
  simp

/-- Bind on an Ok value reduces to the continuation. -/
theorem except_bind_ok {ε α β : Type} (a : α) (f : α → Except ε β) :
    (Bind.bind (Except.ok a) f : Except ε β) = f a := rfl

/-- Bind on an error short-circuits. -/
theorem except_bind_error {ε α β : Type} (e : ε) (f : α → Except ε β) :
    (Bind.bind (Except.error e : Except ε α) f) = (Except.error e : Except ε β) := rfl

theorem except_pure_eq {ε α : Type} (a : α) : (pure a : Except ε α) = Except.ok a := rfl

set_option maxRecDepth 100000 in
set_option maxHeartbeats 16000000 in
theorem chain_step0 : db_open_fresh = .ok chainT0 := by decide

set_option maxRecDepth 100000 in
set_option maxHeartbeats 16000000 in
theorem chain_step1 :
    execute_insert 40 chainT0 (some (mkRow 1 2)) = .ok (.success, chainT1) := by decide

set_option maxRecDepth 100000 in
set_option maxHeartbeats 16000000 in
theorem chain_step2 :
    execute_insert 40 chainT1 (some (mkRow 2 0)) = .ok (.success, chainT2) := by decide

set_option maxRecDepth 100000 in
set_option maxHeartbeats 16000000 in
theorem chain_step3 :
    execute_insert 40 chainT2 (some (mkRow 3 0)) = .ok (.success, chainT3) := by decide

set_option maxRecDepth 100000 in
set_option maxHeartbeats 16000000 in
theorem chain_step4 :
    execute_insert 40 chainT3 (some (mkRow 4 0)) = .ok (.success, chainT4) := by decide

set_option maxRecDepth 100000 in
set_option maxHeartbeats 16000000 in
theorem chain_step5 :
    execute_insert 40 chainT4 (some (mkRow 5 0)) = .ok (.success, chainT5) := by decide

set_option maxRecDepth 100000 in
set_option maxHeartbeats 16000000 in
theorem chain_step6 :
    execute_insert 40 chainT5 (some (mkRow 6 0)) = .ok (.success, chainT6) := by decide

set_option maxRecDepth 100000 in
set_option maxHeartbeats 16000000 in
theorem chain_step7 :
    execute_insert 40 chainT6 (some (mkRow 7 0)) = .ok (.success, chainT7) := by decide

set_option maxRecDepth 100000 in
set_option maxHeartbeats 16000000 in
theorem chain_step8 :
    execute_insert 40 chainT7 (some (mkRow 8 0)) = .ok (.success, chainT8) := by decide

set_option maxRecDepth 100000 in
set_option maxHeartbeats 16000000 in
theorem chain_step9 :
    execute_insert 40 chainT8 (some (mkRow 9 0)) = .ok (.success, chainT9) := by decide

set_option maxRecDepth 100000 in
set_option maxHeartbeats 16000000 in
theorem chain_step10 :
    execute_insert 40 chainT9 (some (mkRow 10 0)) = .ok (.success, chainT10) := by decide

set_option maxRecDepth 100000 in
set_option maxHeartbeats 16000000 in
theorem chain_step11 :
    execute_insert 40 chainT10 (some (mkRow 11 0)) = .ok (.success, chainT11) := by decide

set_option maxRecDepth 100000 in
set_option maxHeartbeats 16000000 in
theorem chain_step12 :
    execute_insert 40 chainT11 (some (mkRow 12 0)) = .ok (.success, chainT12) := by decide

set_option maxRecDepth 100000 in
set_option maxHeartbeats 16000000 in
theorem chain_step13 :
    execute_insert 40 chainT12 (some (mkRow 13 0)) = .ok (.success, chainT13) := by decide

set_option maxRecDepth 100000 in
set_option maxHeartbeats 16000000 in
theorem chain_step14 :
    execute_insert 40 chainT13 (some (mkRow 14 0)) = .ok (.success, chainT14) := by decide

set_option maxRecDepth 100000 in
set_option maxHeartbeats 16000000 in
theorem chain_step15 :
    execute_insert 40 chainT14 (some (mkRow 15 0)) = .ok (.success, chainT15) := by decide

set_option maxRecDepth 100000 in
set_option maxHeartbeats 16000000 in
theorem chain_step16 :
    execute_insert 40 chainT15 (some (mkRow 16 0)) = .ok (.success, chainT16) := by decide

set_option maxRecDepth 100000 in
set_option maxHeartbeats 16000000 in
theorem chain_step17 :
    execute_insert 40 chainT16 (some (mkRow 17 0)) = .ok (.success, chainT17) := by decide

set_option maxRecDepth 100000 in
set_option maxHeartbeats 16000000 in
theorem chain_step18 :
    execute_insert 40 chainT17 (some (mkRow 18 0)) = .ok (.success, chainT18) := by decide

set_option maxRecDepth 100000 in
set_option maxHeartbeats 16000000 in
theorem chain_step19 :
    execute_insert 40 chainT18 (some (mkRow 19 0)) = .ok (.success, chainT19) := by decide

set_option maxRecDepth 100000 in
set_option maxHeartbeats 16000000 in
theorem chain_step20 :
    execute_insert 40 chainT19 (some (mkRow 20 0)) = .ok (.success, chainT20) := by decide

set_option maxRecDepth 100000 in
set_option maxHeartbeats 16000000 in
theorem chain_step21 :
    execute_insert 40 chainT20 (some (mkRow 21 0)) = .ok (.success, chainT21) := by decide

set_option maxRecDepth 100000 in
set_option maxHeartbeats 16000000 in
theorem chain_step22 :
    execute_insert 40 chainT21 (some (mkRow 10 0)) = .ok (.success, chainT22) := by decide

set_option maxRecDepth 100000 in
set_option maxHeartbeats 16000000 in
theorem chain_step23 :
    execute_insert 40 chainT22 (some (mkRow 11 0)) = .ok (.success, chainT23) := by decide

set_option maxRecDepth 100000 in
set_option maxHeartbeats 16000000 in
theorem chain_step24 :
    execute_insert 40 chainT23 (some (mkRow 12 0)) = .ok (.success, chainT24) := by decide

set_option maxRecDepth 100000 in
set_option maxHeartbeats 16000000 in
theorem chain_step25 :
    execute_insert 40 chainT24 (some (mkRow 13 0)) = .ok (.success, chainT25) := by decide

set_option maxRecDepth 100000 in
set_option maxHeartbeats 16000000 in
theorem chain_step26 :
    execute_insert 40 chainT25 (some (mkRow 14 0)) = .ok (.success, chainT26) := by decide

set_option maxRecDepth 100000 in
set_option maxHeartbeats 16000000 in
theorem chain_step27 :
    execute_insert 40 chainT26 (some (mkRow 0 0)) = .ok (.success, chainT27) := by decide

set_option maxRecDepth 100000 in
set_option maxHeartbeats 16000000 in
theorem chain_step28 :
    execute_insert 40 chainT27 (some (mkRow 9 0)) = .ok (.success, chainT28) := by decide

/-- Composing one successful insert with a run of the remaining script. -/
theorem run_inserts_cons {fuel : Nat} {T T1 T2 : Table} {row : Row}
    {rest : List Row} {rs : List ExecuteResult}
    (h1 : execute_insert fuel T (some row) = .ok (.success, T1))
    (h2 : run_inserts fuel T1 rest = .ok (rs, T2)) :
    run_inserts fuel T (row :: rest) = .ok (.success :: rs, T2) := by
  simp only [run_inserts, h1, h2]

/-- Running the first 14 script statements from the fresh state reaches
chainT14, every statement succeeding. -/
theorem chain_run14 :
    run_inserts 40 chainT0 (chain_rows.take 14) =
      .ok (List.replicate 14 .success, chainT14) :=
  run_inserts_cons chain_step1 (run_inserts_cons chain_step2 (run_inserts_cons chain_step3 (run_inserts_cons chain_step4 (run_inserts_cons chain_step5 (run_inserts_cons chain_step6 (run_inserts_cons chain_step7 (run_inserts_cons chain_step8 (run_inserts_cons chain_step9 (run_inserts_cons chain_step10 (run_inserts_cons chain_step11 (run_inserts_cons chain_step12 (run_inserts_cons chain_step13 (run_inserts_cons chain_step14 rfl)))))))))))))

/-- Running the first 21 script statements from the fresh state reaches
chainT21, every statement succeeding. -/
theorem chain_run21 :
    run_inserts 40 chainT0 (chain_rows.take 21) =
      .ok (List.replicate 21 .success, chainT21) :=
  run_inserts_cons chain_step1 (run_inserts_cons chain_step2 (run_inserts_cons chain_step3 (run_inserts_cons chain_step4 (run_inserts_cons chain_step5 (run_inserts_cons chain_step6 (run_inserts_cons chain_step7 (run_inserts_cons chain_step8 (run_inserts_cons chain_step9 (run_inserts_cons chain_step10 (run_inserts_cons chain_step11 (run_inserts_cons chain_step12 (run_inserts_cons chain_step13 (run_inserts_cons chain_step14 (run_inserts_cons chain_step15 (run_inserts_cons chain_step16 (run_inserts_cons chain_step17 (run_inserts_cons chain_step18 (run_inserts_cons chain_step19 (run_inserts_cons chain_step20 (run_inserts_cons chain_step21 rfl))))))))))))))))))))

/-- Running the whole 28-statement script from the fresh state reaches
chainT28, every statement succeeding. -/
theorem chain_run28 :
    run_inserts 40 chainT0 chain_rows =
      .ok (List.replicate 28 .success, chainT28) :=
  run_inserts_cons chain_step1 (run_inserts_cons chain_step2 (run_inserts_cons chain_step3 (run_inserts_cons chain_step4 (run_inserts_cons chain_step5 (run_inserts_cons chain_step6 (run_inserts_cons chain_step7 (run_inserts_cons chain_step8 (run_inserts_cons chain_step9 (run_inserts_cons chain_step10 (run_inserts_cons chain_step11 (run_inserts_cons chain_step12 (run_inserts_cons chain_step13 (run_inserts_cons chain_step14 (run_inserts_cons chain_step15 (run_inserts_cons chain_step16 (run_inserts_cons chain_step17 (run_inserts_cons chain_step18 (run_inserts_cons chain_step19 (run_inserts_cons chain_step20 (run_inserts_cons chain_step21 (run_inserts_cons chain_step22 (run_inserts_cons chain_step23 (run_inserts_cons chain_step24 (run_inserts_cons chain_step25 (run_inserts_cons chain_step26 (run_inserts_cons chain_step27 (run_inserts_cons chain_step28 rfl)))))))))))))))))))))))))))

/-- Claim C1 (table_start positions the cursor at cell 0 of the leftmost
leaf, reached by descending from the root): refuted on the code.  After
the 14 inserts below (all successful, from a freshly opened database)
the root page 0 is an internal node whose leftmost child is the leaf
page 2, yet table_start still returns a cursor on page 0 — it reads
page 0 directly and interprets its internal num_keys field as a leaf
cell count, instead of descending to the leftmost leaf. -/
theorem C1_table_start_stays_on_root_page :
    db_open_fresh = .ok chainT0 ∧
    run_inserts 40 chainT0 (chain_rows.take 14) =
      .ok (List.replicate 14 .success, chainT14) ∧
    get_node_type (pageMem chainT14 0) = .ok .internal ∧
    internal_node_child_get (pageMem chainT14 0) 0 = .ok 2 ∧
    get_node_type (pageMem chainT14 2) = .ok .leaf ∧
    leaf_node_key (pageMem chainT14 2) 0 = 1 ∧
    table_start chainT14 =
      .ok ({ page_num := 0, cell_num := 0, end_of_table := false }, chainT14) :=
  ⟨chain_step0, chain_run14, by decide, by decide, by decide, by decide, by decide⟩

/-- Claim C2 (after any successful insert sequence the keys within an
internal node are strictly ascending): refuted on the code.  The
28-statement script below runs from a freshly opened database with
every statement reporting Success, yet afterwards the root internal
node holds the keys 6, 14, 14 — the key at index 1 is not below the key
at index 2.  (The corruption stems from internal_node_insert writing
the shifted cell child through internal_node_child(parent, num_keys),
which aliases the right-child slot, leaving stale bytes — here planted
via row 1's username — as cell child pointers.) -/
theorem C2_internal_node_keys_not_strictly_ascending :
    db_open_fresh = .ok chainT0 ∧
    run_inserts 40 chainT0 chain_rows = .ok (List.replicate 28 .success, chainT28) ∧
    get_node_type (pageMem chainT28 0) = .ok .internal ∧
    internal_node_num_keys (pageMem chainT28 0) = 3 ∧
    internal_node_key_at (pageMem chainT28 0) 0 = 6 ∧
    internal_node_key_at (pageMem chainT28 0) 1 = 14 ∧
    internal_node_key_at (pageMem chainT28 0) 2 = 14 ∧
    ¬ internal_node_key_at (pageMem chainT28 0) 1 <
        internal_node_key_at (pageMem chainT28 0) 2 :=
  ⟨chain_step0, chain_run28, by decide, by decide, by decide, by decide, by decide, by decide⟩

/-- Claim C3 (inserting a key already present yields DuplicateKey and
leaves every page unchanged): refuted on the code.  After the first 21
script statements (all successful, from a freshly opened database) the
key 10 is stored in leaf page 1 at cell 2; re-inserting key 10
nevertheless returns Success and appends a second cell with key 10 to
leaf page 2, whose cell count grows from 7 to 8 — the misrouted search
lands on a leaf that does not contain the key, so the duplicate check
never fires. -/
theorem C3_duplicate_key_insert_reports_success :
    db_open_fresh = .ok chainT0 ∧
    run_inserts 40 chainT0 (chain_rows.take 21) =
      .ok (List.replicate 21 .success, chainT21) ∧
    leaf_node_key (pageMem chainT21 1) 2 = 10 ∧
    execute_insert 40 chainT21 (some (mkRow 10 0)) = .ok (.success, chainT22) ∧
    leaf_node_num_cells (pageMem chainT21 2) = 7 ∧
    leaf_node_num_cells (pageMem chainT22 2) = 8 ∧
    leaf_node_key (pageMem chainT22 2) 7 = 10 :=
  ⟨chain_step0, chain_run21, by decide, chain_step22, by decide, by decide, by decide⟩

/-- Claim C8: pager_open aborts with the corrupt-file diagnostic exactly
when the file length is not a whole multiple of PAGE_SIZE; otherwise it
returns a pager with num_pages = file_length / PAGE_SIZE and every one
of the TABLE_MAX_PAGES cache slots empty. -/
theorem C8_pager_open_length_check (file file_length : Nat) :
    (file_length % PAGE_SIZE ≠ 0 → pager_open file file_length = .error .corruptFile) ∧
    (file_length % PAGE_SIZE = 0 →
      pager_open file file_length =
        .ok { file := file, file_length := file_length,
              num_pages := file_length / PAGE_SIZE,
              pages := List.replicate TABLE_MAX_PAGES none }) := by
  constructor
  · intro h
    unfold pager_open
    rw [if_pos h]
  · intro h
    unfold pager_open
    rw [if_neg (by omega)]

/-- Witness for C8 at concrete lengths 4097 (not page-aligned) and 8192
(two whole pages). -/
theorem C8_pager_open_length_check_witness :
    pager_open 7 4097 = .error .corruptFile ∧
    pager_open 7 8192 =
      .ok { file := 7, file_length := 8192, num_pages := 2,
            pages := List.replicate TABLE_MAX_PAGES none } :=
  ⟨(C8_pager_open_length_check 7 4097).1 (by decide),
   (C8_pager_open_length_check 7 8192).2 (by decide)⟩

/-- Claim C9: serialize_row writes the 291 = 4 + 32 + 255 row bytes — the
u32 id little-endian at offset 0, the 32 username bytes at offset 4, the
255 email bytes at offset 36, with no intervening padding — touching no
byte outside [base, base + 291), and deserialize applied to those 291
bytes returns the original row (fields bounded as by the source's u32,
[u8; 32] and [u8; 255] field types). -/
theorem C9_row_serialize_roundtrip (r : Row) (m : Mem) (base : Nat)
    (hid : r.id < 256 ^ ID_SIZE) (hu : r.username < 256 ^ USERNAME_SIZE)
    (he : r.email < 256 ^ EMAIL_SIZE) :
    (ROW_SIZE = 291 ∧ ID_OFFSET = 0 ∧ USERNAME_OFFSET = 4 ∧ EMAIL_OFFSET = 36) ∧
    (readRange (serialize_row r m base) (base + ID_OFFSET) ID_SIZE = r.id ∧
      readRange (serialize_row r m base) (base + USERNAME_OFFSET) USERNAME_SIZE = r.username ∧
      readRange (serialize_row r m base) (base + EMAIL_OFFSET) EMAIL_SIZE = r.email) ∧
    (∀ j, j + 1 ≤ base ∨ base + ROW_SIZE ≤ j →
      readByte (serialize_row r m base) j = readByte m j) ∧
    deserialize (readRange (serialize_row r m base) base ROW_SIZE) = r := by
  have hs : serialize_row r m base =
      writeRange (writeRange (writeRange m (base + 0) 4 r.id) (base + 4) 32 r.username)
        (base + 36) 255 r.email := rfl
  have hID : readRange (serialize_row r m base) (base + 0) 4 = r.id := by
    rw [hs, readRange_writeRange_below _ _ _ _ _ _ (by omega),
      readRange_writeRange_below _ _ _ _ _ _ (by omega),
      readRange_writeRange_self]
    exact Nat.mod_eq_of_lt hid
  have hU : readRange (serialize_row r m base) (base + 4) 32 = r.username := by
    rw [hs, readRange_writeRange_below _ _ _ _ _ _ (by omega),
      readRange_writeRange_self]
    exact Nat.mod_eq_of_lt hu
  have hE : readRange (serialize_row r m base) (base + 36) 255 = r.email := by
    rw [hs, readRange_writeRange_self]
    exact Nat.mod_eq_of_lt he
  refine ⟨⟨rfl, rfl, rfl, rfl⟩, ⟨hID, hU, hE⟩, ?_, ?_⟩
  · intro j hj
    have hR : ROW_SIZE = 291 := rfl
    show readRange (serialize_row r m base) j 1 = readRange m j 1
    rcases hj with hj | hj
    · rw [hs, readRange_writeRange_below _ _ _ _ _ _ (by omega),
        readRange_writeRange_below _ _ _ _ _ _ (by omega),
        readRange_writeRange_below _ _ _ _ _ _ (by omega)]
    · rw [hs, readRange_writeRange_above _ _ _ _ _ _ (by omega),
        readRange_writeRange_above _ _ _ _ _ _ (by omega),
        readRange_writeRange_above _ _ _ _ _ _ (by omega)]
  · simp only [deserialize, ID_OFFSET, ID_SIZE, USERNAME_OFFSET, USERNAME_SIZE,
      EMAIL_OFFSET, EMAIL_SIZE, COLUMN_USERNAME_SIZE, COLUMN_EMAIL_SIZE, ROW_SIZE]
    rw [readRange_readRange _ _ _ _ _ (by omega), readRange_readRange _ _ _ _ _ (by omega),
      readRange_readRange _ _ _ _ _ (by omega), hID, hU, hE]

/-- Witness for C9 at the concrete row (id 7, first username byte 9)
serialized at base offset 5 of the zero buffer. -/
theorem C9_row_serialize_roundtrip_witness :
    (readRange (serialize_row (mkRow 7 9) 0 5) (5 + ID_OFFSET) ID_SIZE = 7 ∧
      readRange (serialize_row (mkRow 7 9) 0 5) (5 + USERNAME_OFFSET) USERNAME_SIZE = 9 ∧
      readRange (serialize_row (mkRow 7 9) 0 5) (5 + EMAIL_OFFSET) EMAIL_SIZE = 0) ∧
    deserialize (readRange (serialize_row (mkRow 7 9) 0 5) 5 ROW_SIZE) = mkRow 7 9 :=
  ⟨(C9_row_serialize_roundtrip (mkRow 7 9) 0 5 (by decide) (by decide) (by decide)).2.1,
   (C9_row_serialize_roundtrip (mkRow 7 9) 0 5 (by decide) (by decide) (by decide)).2.2.2⟩

/-- Claim C10: for every cell index i < LEAF_NODE_MAX_CELLS the byte
range the leaf cell accessor touches, [leaf_node_cell_offset i,
leaf_node_cell_offset i + LEAF_NODE_CELL_SIZE), lies inside the
4096-byte page, and the key and value sub-ranges lie inside the cell,
so leaf_node_cell, leaf_node_key and leaf_node_value stay in bounds;
the bound is tight: the one-past-the-end slot i = LEAF_NODE_MAX_CELLS
already reaches past the end of the page. -/
theorem C10_leaf_cell_accessors_in_bounds (i : Nat) (h : i < LEAF_NODE_MAX_CELLS) :
    leaf_node_cell_offset i + LEAF_NODE_CELL_SIZE ≤ PAGE_SIZE ∧
    LEAF_NODE_KEY_OFFSET + LEAF_NODE_KEY_SIZE ≤ LEAF_NODE_CELL_SIZE ∧
    LEAF_NODE_VALUE_OFFSET + LEAF_NODE_VALUE_SIZE ≤ LEAF_NODE_CELL_SIZE ∧
    PAGE_SIZE < leaf_node_cell_offset LEAF_NODE_MAX_CELLS + LEAF_NODE_CELL_SIZE := by
  have h13 : LEAF_NODE_MAX_CELLS = 13 := by decide
  refine ⟨?_, by decide, by decide, by decide⟩
  have hH : LEAF_NODE_HEADER_SIZE = 14 := by decide
  have hC : LEAF_NODE_CELL_SIZE = 295 := by decide
  have hP : PAGE_SIZE = 4096 := by decide
  unfold leaf_node_cell_offset
  rw [hH, hC, hP]
  omega

/-- Witness for C10 at the last valid cell index 12. -/
theorem C10_leaf_cell_accessors_in_bounds_witness :
    leaf_node_cell_offset 12 + LEAF_NODE_CELL_SIZE ≤ PAGE_SIZE ∧
    LEAF_NODE_KEY_OFFSET + LEAF_NODE_KEY_SIZE ≤ LEAF_NODE_CELL_SIZE ∧
    LEAF_NODE_VALUE_OFFSET + LEAF_NODE_VALUE_SIZE ≤ LEAF_NODE_CELL_SIZE ∧
    PAGE_SIZE < leaf_node_cell_offset LEAF_NODE_MAX_CELLS + LEAF_NODE_CELL_SIZE :=
  C10_leaf_cell_accessors_in_bounds 12 (by decide)

/-- Counterexample for claim C7: in tableFullState the root page 0 is a
full leaf and every page number is already handed out, so the insert of
key 22 must allocate page 100 — the statement aborts fatally with the
pageOutOfBounds process exit of get_page instead of returning
TableFull. -/
theorem C7_page_exhaustion_aborts_fatally :
    get_unused_page_num tableFullState.pager = TABLE_MAX_PAGES ∧
    get_node_type (pageMem tableFullState 0) = .ok .leaf ∧
    leaf_node_num_cells (pageMem tableFullState 0) = LEAF_NODE_MAX_CELLS ∧
    execute_insert 40 tableFullState (some (mkRow 22 0)) = .error .pageOutOfBounds :=
  ⟨by decide, by decide, by decide, by decide⟩

/-- Claim C7 as amended: an insert statement that carries a row never
returns TableFull, for any fuel, table state and row — every successful
path reports Success or DuplicateKey, and page exhaustion surfaces as a
fatal abort (see the counterexample theorem), never as TableFull. -/
theorem C7_insert_never_reports_table_full (fuel : Nat) (T : Table) (row : Row) :
    is_table_full_result (execute_insert fuel T (some row)) = false := by
  simp only [execute_insert]
  cases htf : table_find fuel T row.id with
  | error e => simp only [htf, except_bind_error, is_table_full_result]
  | ok v =>
    obtain ⟨c, T1⟩ := v
    simp only [htf, except_bind_ok]
    cases hgp : getPageT T1 c.page_num with
    | error e => simp only [hgp, except_bind_error, is_table_full_result]
    | ok w =>
      obtain ⟨node, T2⟩ := w
      simp only [hgp, except_bind_ok]
      by_cases hc : c.cell_num < leaf_node_num_cells node
      · rw [if_pos hc]
        by_cases hk : leaf_node_key node c.cell_num = row.id % 4294967296
        · rw [if_pos hk]
          rfl
        · rw [if_neg hk]
          cases hli : leaf_node_insert fuel T2 c.page_num c.cell_num row.id row with
          | error e => simp only [hli, except_bind_error, is_table_full_result]
          | ok T3 => simp only [hli, except_bind_ok, except_pure_eq, is_table_full_result]
      · rw [if_neg hc]
        cases hli : leaf_node_insert fuel T2 c.page_num c.cell_num row.id row with
        | error e => simp only [hli, except_bind_error, is_table_full_result]
        | ok T3 => simp only [hli, except_bind_ok, except_pure_eq, is_table_full_result]

/-- Invariant-based characterization of the internal binary-search loop:
started on [l, r) with every key before l below the search key and every
key from r on at or above it, and fuel at least r - l, the loop lands on
the least index whose key is at or above the search key. -/
theorem internal_find_child_loop_spec (m : Mem) (key : Nat)
    (hs : internal_keys_ascending m) :
    ∀ fuel l r, l ≤ r → r ≤ internal_node_num_keys m → r - l ≤ fuel →
      (∀ j, j < l → internal_node_key_at m j < key) →
      (∀ j, r ≤ j → j < internal_node_num_keys m → key ≤ internal_node_key_at m j) →
      l ≤ internal_node_find_child_loop m key fuel l r ∧
        internal_node_find_child_loop m key fuel l r ≤ r ∧
        (∀ j, j < internal_node_find_child_loop m key fuel l r →
          internal_node_key_at m j < key) ∧
        (internal_node_find_child_loop m key fuel l r < internal_node_num_keys m →
          key ≤ internal_node_key_at m (internal_node_find_child_loop m key fuel l r)) := by
  intro fuel
  induction fuel with
  | zero =>
    intro l r h1 h2 h3 h4 h5
    have hloop : internal_node_find_child_loop m key 0 l r = l := by
      rw [internal_node_find_child_loop, if_pos (by omega)]
    rw [hloop]
    exact ⟨le_refl l, h1, h4, fun hlt => h5 l (by omega) hlt⟩
  | succ n ih =>
    intro l r h1 h2 h3 h4 h5
    by_cases hrl : r ≤ l
    · have hloop : internal_node_find_child_loop m key (n + 1) l r = l := by
        rw [internal_node_find_child_loop, if_pos hrl]
      rw [hloop]
      exact ⟨le_refl l, h1, h4, fun hlt => h5 l (by omega) hlt⟩
    · have hstep : internal_node_find_child_loop m key (n + 1) l r =
          if key ≤ internal_node_key_at m ((l + r) / 2) then
            internal_node_find_child_loop m key n l ((l + r) / 2)
          else internal_node_find_child_loop m key n ((l + r) / 2 + 1) r := by
        rw [internal_node_find_child_loop, if_neg hrl]
      by_cases hk : key ≤ internal_node_key_at m ((l + r) / 2)
      · rw [hstep, if_pos hk]
        have hnew : ∀ j, (l + r) / 2 ≤ j → j < internal_node_num_keys m →
            key ≤ internal_node_key_at m j := by
          intro j hj hj2
          by_cases hje : j = (l + r) / 2
          · rw [hje]
            exact hk
          · have hjl : (l + r) / 2 < j := by omega
            exact le_trans hk (le_of_lt (hs j hj2 _ hjl))
        obtain ⟨a, b, c, d⟩ := ih l ((l + r) / 2) (by omega) (by omega) (by omega) h4 hnew
        exact ⟨a, by omega, c, d⟩
      · rw [hstep, if_neg hk]
        have hk2 : internal_node_key_at m ((l + r) / 2) < key := by omega
        have hnew : ∀ j, j < (l + r) / 2 + 1 → internal_node_key_at m j < key := by
          intro j hj
          by_cases hje : j = (l + r) / 2
          · rw [hje]
            exact hk2
          · have hjl : j < (l + r) / 2 := by omega
            exact lt_trans (hs ((l + r) / 2) (by omega) j hjl) hk2
        obtain ⟨a, b, c, d⟩ := ih ((l + r) / 2 + 1) r (by omega) h2 (by omega) hnew h5
        exact ⟨by omega, b, c, d⟩

/-- Invariant-based characterization of the leaf binary-search loop
(the loop of leaf_node_find, with its early return on an exact key
match): under the same invariants it lands on the least index whose key
is at or above the search key. -/
theorem leaf_find_loop_spec (m : Mem) (key : Nat)
    (hs : leaf_keys_ascending m) :
    ∀ fuel mn mx, mn ≤ mx → mx ≤ leaf_node_num_cells m → mx - mn ≤ fuel →
      (∀ j, j < mn → leaf_node_key m j < key) →
      (∀ j, mx ≤ j → j < leaf_node_num_cells m → key ≤ leaf_node_key m j) →
      mn ≤ leaf_node_find_loop m key fuel mn mx ∧
        leaf_node_find_loop m key fuel mn mx ≤ mx ∧
        (∀ j, j < leaf_node_find_loop m key fuel mn mx → leaf_node_key m j < key) ∧
        (leaf_node_find_loop m key fuel mn mx < leaf_node_num_cells m →
          key ≤ leaf_node_key m (leaf_node_find_loop m key fuel mn mx)) := by
  intro fuel
  induction fuel with
  | zero =>
    intro mn mx h1 h2 h3 h4 h5
    have hloop : leaf_node_find_loop m key 0 mn mx = mn := by
      rw [leaf_node_find_loop, if_pos (by omega)]
    rw [hloop]
    exact ⟨le_refl mn, h1, h4, fun hlt => h5 mn (by omega) hlt⟩
  | succ n ih =>
    intro mn mx h1 h2 h3 h4 h5
    by_cases hrl : mx ≤ mn
    · have hloop : leaf_node_find_loop m key (n + 1) mn mx = mn := by
        rw [leaf_node_find_loop, if_pos hrl]
      rw [hloop]
      exact ⟨le_refl mn, h1, h4, fun hlt => h5 mn (by omega) hlt⟩
    · have hstep : leaf_node_find_loop m key (n + 1) mn mx =
          if key = leaf_node_key m ((mn + mx) / 2) then (mn + mx) / 2
          else if key < leaf_node_key m ((mn + mx) / 2) then
            leaf_node_find_loop m key n mn ((mn + mx) / 2)
          else leaf_node_find_loop m key n ((mn + mx) / 2 + 1) mx := by
        rw [leaf_node_find_loop, if_neg hrl]
      by_cases hke : key = leaf_node_key m ((mn + mx) / 2)
      · rw [hstep, if_pos hke]
        refine ⟨by omega, by omega, ?_, ?_⟩
        · intro j hj
          rw [hke]
          exact hs ((mn + mx) / 2) (by omega) j hj
        · intro _
          exact le_of_eq hke
      · rw [hstep, if_neg hke]
        by_cases hkl : key < leaf_node_key m ((mn + mx) / 2)
        · rw [if_pos hkl]
          have hnew : ∀ j, (mn + mx) / 2 ≤ j → j < leaf_node_num_cells m →
              key ≤ leaf_node_key m j := by
            intro j hj hj2
            by_cases hje : j = (mn + mx) / 2
            · rw [hje]
              exact le_of_lt hkl
            · have hjl : (mn + mx) / 2 < j := by omega
              exact le_trans (le_of_lt hkl) (le_of_lt (hs j hj2 _ hjl))
          obtain ⟨a, b, c, d⟩ := ih mn ((mn + mx) / 2) (by omega) (by omega) (by omega) h4 hnew
          exact ⟨a, by omega, c, d⟩
        · rw [if_neg hkl]
          have hk2 : leaf_node_key m ((mn + mx) / 2) < key := by omega
          have hnew : ∀ j, j < (mn + mx) / 2 + 1 → leaf_node_key m j < key := by
            intro j hj
            by_cases hje : j = (mn + mx) / 2
            · rw [hje]
              exact hk2
            · have hjl : j < (mn + mx) / 2 := by omega
              exact lt_trans (hs ((mn + mx) / 2) (by omega) j hjl) hk2
          obtain ⟨a, b, c, d⟩ := ih ((mn + mx) / 2 + 1) mx (by omega) h2 (by omega) hnew h5
          exact ⟨by omega, b, c, d⟩

/-- Claim C5: on an internal node with strictly ascending keys,
internal_node_find_child returns the least index whose key is at or
above the search key (num_keys when every key is below it): the result
i satisfies i ≤ num_keys, every key before i is < key, and when
i < num_keys the key at i is ≥ key.  Likewise the leaf binary search —
the loop below is exactly what leaf_node_find invokes, with min 0,
max num_cells and fuel num_cells — returns the least cell index whose
key is at or above the search key (num_cells when every key is below
it). -/
theorem C5_binary_search_least_index (mi ml : Mem) (key : Nat)
    (hi : internal_keys_ascending mi) (hl : leaf_keys_ascending ml) :
    (internal_node_find_child mi key ≤ internal_node_num_keys mi ∧
      (∀ j, j < internal_node_find_child mi key → internal_node_key_at mi j < key) ∧
      (internal_node_find_child mi key < internal_node_num_keys mi →
        key ≤ internal_node_key_at mi (internal_node_find_child mi key))) ∧
    (leaf_node_find_loop ml key (leaf_node_num_cells ml) 0 (leaf_node_num_cells ml) ≤
        leaf_node_num_cells ml ∧
      (∀ j, j < leaf_node_find_loop ml key (leaf_node_num_cells ml) 0 (leaf_node_num_cells ml) →
        leaf_node_key ml j < key) ∧
      (leaf_node_find_loop ml key (leaf_node_num_cells ml) 0 (leaf_node_num_cells ml) <
          leaf_node_num_cells ml →
        key ≤ leaf_node_key ml
          (leaf_node_find_loop ml key (leaf_node_num_cells ml) 0 (leaf_node_num_cells ml)))) := by
  constructor
  · obtain ⟨a, b, c, d⟩ := internal_find_child_loop_spec mi key hi
      (internal_node_num_keys mi) 0 (internal_node_num_keys mi) (Nat.zero_le _) (le_refl _)
      (by omega) (by intro j hj; omega) (by intro j hj hj2; omega)
    exact ⟨b, c, d⟩
  · obtain ⟨a, b, c, d⟩ := leaf_find_loop_spec ml key hl
      (leaf_node_num_cells ml) 0 (leaf_node_num_cells ml) (Nat.zero_le _) (le_refl _)
      (by omega) (by intro j hj; omega) (by intro j hj hj2; omega)
    exact ⟨b, c, d⟩

/-- Witness for C5 on the pages reached after 14 inserts: the internal
root page 0 (one key) and the leaf page 2 (keys 1..7), searched for
key 5. -/
theorem C5_binary_search_least_index_witness :
    (internal_node_find_child (pageMem chainT14 0) 5 ≤
        internal_node_num_keys (pageMem chainT14 0) ∧
      (∀ j, j < internal_node_find_child (pageMem chainT14 0) 5 →
        internal_node_key_at (pageMem chainT14 0) j < 5) ∧
      (internal_node_find_child (pageMem chainT14 0) 5 <
          internal_node_num_keys (pageMem chainT14 0) →
        5 ≤ internal_node_key_at (pageMem chainT14 0)
          (internal_node_find_child (pageMem chainT14 0) 5))) ∧
    (leaf_node_find_loop (pageMem chainT14 2) 5 (leaf_node_num_cells (pageMem chainT14 2)) 0
        (leaf_node_num_cells (pageMem chainT14 2)) ≤
        leaf_node_num_cells (pageMem chainT14 2) ∧
      (∀ j, j < leaf_node_find_loop (pageMem chainT14 2) 5
          (leaf_node_num_cells (pageMem chainT14 2)) 0
          (leaf_node_num_cells (pageMem chainT14 2)) →
        leaf_node_key (pageMem chainT14 2) j < 5) ∧
      (leaf_node_find_loop (pageMem chainT14 2) 5 (leaf_node_num_cells (pageMem chainT14 2)) 0
          (leaf_node_num_cells (pageMem chainT14 2)) <
          leaf_node_num_cells (pageMem chainT14 2) →
        5 ≤ leaf_node_key (pageMem chainT14 2)
          (leaf_node_find_loop (pageMem chainT14 2) 5
            (leaf_node_num_cells (pageMem chainT14 2)) 0
            (leaf_node_num_cells (pageMem chainT14 2))))) :=
  C5_binary_search_least_index (pageMem chainT14 0) (pageMem chainT14 2) 5
    (by decide) (by decide)

theorem list_getD_set_self {α : Type} (l : List α) (n : Nat) (a d : α) (h : n < l.length) :
    (l.set n a).getD n d = a := by
  induction l generalizing n with
  | nil => simp at h
  | cons x xs ih =>
    cases n with
    | zero => rfl
    | succ k => exact ih k (by simpa using h)

theorem list_getD_set_ne {α : Type} (l : List α) (n m : Nat) (a d : α) (h : ¬ n = m) :
    (l.set n a).getD m d = l.getD m d := by
  induction l generalizing n m with
  | nil => rfl
  | cons x xs ih =>
    cases n with
    | zero =>
      cases m with
      | zero => exact absurd rfl h
      | succ j => rfl
    | succ k =>
      cases m with
      | zero => rfl
      | succ j => exact ih k j (by omega)

theorem readRange_len_zero (m off : Nat) : readRange m off 0 = 0 := by
  unfold readRange
  rw [pow_zero, Nat.mod_one]

/-- A slice read splits at any interior point into its low digits plus
the shifted high digits. -/
theorem readRange_split (m off l1 l2 : Nat) :
    readRange m off (l1 + l2) =
      readRange m off l1 + 256 ^ l1 * readRange m (off + l1) l2 := by
  unfold readRange
  rw [pow_add, Nat.mod_mul, Nat.div_div_eq_div_mul, ← pow_add]

/-- Reading a resident page neither faults nor changes the table. -/
theorem getPageT_hit (T : Table) (n : Nat) (pg : Mem)
    (h1 : n < TABLE_MAX_PAGES) (h2 : T.pager.pages.getD n none = some pg) :
    getPageT T n = .ok (pg, T) := by
  unfold getPageT get_page
  rw [if_neg (by omega), h2]

/-- Reading a fresh page past the on-disk range installs the zero page
and bumps num_pages. -/
theorem getPageT_miss_fresh (T : Table) (n : Nat)
    (h1 : n < TABLE_MAX_PAGES) (h2 : T.pager.pages.getD n none = none)
    (h3 : T.pager.file_length ≤ n * PAGE_SIZE) (h4 : T.pager.num_pages ≤ n) :
    getPageT T n =
      .ok (0, { T with pager := { T.pager with
        pages := T.pager.pages.set n (some 0), num_pages := n + 1 } }) := by
  have hp : PAGE_SIZE = 4096 := rfl
  rw [hp] at h3
  have c0 : ¬ n ≥ TABLE_MAX_PAGES := by omega
  have c1 : ¬ (n < T.pager.file_length / PAGE_SIZE) := by
    rw [hp]
    omega
  have c2 : ¬ (n = T.pager.file_length / PAGE_SIZE ∧ T.pager.file_length % PAGE_SIZE ≠ 0) := by
    rw [hp]
    omega
  have c3 : n ≥ T.pager.num_pages := h4
  simp only [getPageT, get_page, h2, if_neg c0, if_neg c1, if_neg c2, if_pos c3,
    readRange_len_zero]

theorem readRange_lt (m off len : Nat) : readRange m off len < 256 ^ len :=
  Nat.mod_lt _ (pow_pos (by norm_num) len)

theorem getD_bound {l : List Nat} {B : Nat} (hB : 0 < B) (h : ∀ c ∈ l, c < B) :
    ∀ j, l.getD j 0 < B := by
  intro j
  by_cases hj : j < l.length
  · rw [List.getD_eq_getElem l 0 hj]
    exact h _ (List.getElem_mem hj)
  · rw [List.getD_eq_default l 0 (by omega)]
    exact hB

/-- Every cell value of the spliced sequence fits in a cell slot. -/
theorem spliced_cells_bound (m : Mem) (cell_num key : Nat) (row : Row) :
    ∀ c ∈ spliced_cells m cell_num key row, c < 256 ^ LEAF_NODE_CELL_SIZE := by
  intro c hc
  simp only [spliced_cells, List.mem_append] at hc
  have hof : ∀ d ∈ leaf_cells_list m, d < 256 ^ LEAF_NODE_CELL_SIZE := by
    intro d hd
    simp only [leaf_cells_list, List.mem_map] at hd
    obtain ⟨j, _, rfl⟩ := hd
    exact readRange_lt _ _ _
  rcases hc with (hc | hc) | hc
  · exact hof c (List.take_subset _ _ hc)
  · simp only [List.mem_singleton] at hc
    subst hc
    unfold spec_cell_bytes
    have h1 : key % 256 ^ LEAF_NODE_KEY_SIZE < 256 ^ LEAF_NODE_KEY_SIZE :=
      Nat.mod_lt _ (pow_pos (by norm_num) _)
    have h2 : readRange (serialize_row row 0 0) 0 ROW_SIZE < 256 ^ ROW_SIZE :=
      readRange_lt _ _ _
    have h3 : LEAF_NODE_CELL_SIZE = LEAF_NODE_KEY_SIZE + ROW_SIZE := rfl
    rw [h3, pow_add]
    have h4 : 256 ^ LEAF_NODE_KEY_SIZE * (readRange (serialize_row row 0 0) 0 ROW_SIZE + 1) ≤
        256 ^ LEAF_NODE_KEY_SIZE * 256 ^ ROW_SIZE :=
      Nat.mul_le_mul_left _ (by omega)
    have h5 : 256 ^ LEAF_NODE_KEY_SIZE * (readRange (serialize_row row 0 0) 0 ROW_SIZE + 1) =
        256 ^ LEAF_NODE_KEY_SIZE * readRange (serialize_row row 0 0) 0 ROW_SIZE +
          256 ^ LEAF_NODE_KEY_SIZE := by ring
    omega
  · exact hof c (List.drop_subset _ _ hc)

/-- The code's freshly serialized cell (the 4 key bytes written first,
then the row serialized after them) equals the spec's cell bytes. -/
theorem spec_cell_bytes_eq (key : Nat) (row : Row) :
    readRange (serialize_row row (writeRange 0 0 4 key) LEAF_NODE_KEY_SIZE)
      0 LEAF_NODE_CELL_SIZE = spec_cell_bytes key row := by
  have e1 : readRange (writeRange (writeRange (writeRange (writeRange (0) 0 4 key) 4 4 row.id) 8 32 row.username) 40 255 row.email) 0 4 = key % 256 ^ 4 := by
    rw [readRange_writeRange_below _ _ _ _ _ _ (by decide),
      readRange_writeRange_below _ _ _ _ _ _ (by decide),
      readRange_writeRange_below _ _ _ _ _ _ (by decide),
      readRange_writeRange_self]
  have e2 : readRange (writeRange (writeRange (writeRange (writeRange (0) 0 4 key) 4 4 row.id) 8 32 row.username) 40 255 row.email) 4 4 = row.id % 256 ^ 4 := by
    rw [readRange_writeRange_below _ _ _ _ _ _ (by decide),
      readRange_writeRange_below _ _ _ _ _ _ (by decide),
      readRange_writeRange_self]
  have e3 : readRange (writeRange (writeRange (writeRange (writeRange (0) 0 4 key) 4 4 row.id) 8 32 row.username) 40 255 row.email) 8 32 = row.username % 256 ^ 32 := by
    rw [readRange_writeRange_below _ _ _ _ _ _ (by decide),
      readRange_writeRange_self]
  have e4 : readRange (writeRange (writeRange (writeRange (writeRange (0) 0 4 key) 4 4 row.id) 8 32 row.username) 40 255 row.email) 40 255 = row.email % 256 ^ 255 := by
    rw [readRange_writeRange_self]
  have f1 : readRange (writeRange (writeRange (writeRange (0) 0 4 row.id) 4 32 row.username) 36 255 row.email) 0 4 = row.id % 256 ^ 4 := by
    rw [readRange_writeRange_below _ _ _ _ _ _ (by decide),
      readRange_writeRange_below _ _ _ _ _ _ (by decide),
      readRange_writeRange_self]
  have f2 : readRange (writeRange (writeRange (writeRange (0) 0 4 row.id) 4 32 row.username) 36 255 row.email) 4 32 = row.username % 256 ^ 32 := by
    rw [readRange_writeRange_below _ _ _ _ _ _ (by decide),
      readRange_writeRange_self]
  have f3 : readRange (writeRange (writeRange (writeRange (0) 0 4 row.id) 4 32 row.username) 36 255 row.email) 36 255 = row.email % 256 ^ 255 := by
    rw [readRange_writeRange_self]
  show readRange (writeRange (writeRange (writeRange (writeRange (0) 0 4 key) 4 4 row.id) 8 32 row.username) 40 255 row.email) 0 295 =
    key % 256 ^ 4 + 256 ^ 4 * readRange (writeRange (writeRange (writeRange (0) 0 4 row.id) 4 32 row.username) 36 255 row.email) 0 291
  rw [show (295 : Nat) = 4 + 291 from rfl, readRange_split]
  rw [show (291 : Nat) = 4 + 287 from rfl, readRange_split, readRange_split]
  rw [show (287 : Nat) = 32 + 255 from rfl, readRange_split, readRange_split]
  simp only [Nat.zero_add]
  rw [e1, e2, e3, e4, f1, f2, f3]

theorem leaf_num_cells_set_val (m v : Nat) (hv : v < 256 ^ 4) :
    leaf_node_num_cells (set_leaf_node_num_cells m v) = v := by
  unfold leaf_node_num_cells set_leaf_node_num_cells get_u32_at set_u32_at
  rw [readRange_writeRange_self]
  exact Nat.mod_eq_of_lt hv

theorem leaf_num_cells_after_next_leaf (m v : Nat) :
    leaf_node_num_cells (set_leaf_node_next_leaf m v) = leaf_node_num_cells m := by
  unfold leaf_node_num_cells set_leaf_node_next_leaf get_u32_at set_u32_at
  rw [readRange_writeRange_below _ _ _ _ _ _ (by decide)]

theorem leaf_next_leaf_set_val (m v : Nat) (hv : v < 256 ^ 4) :
    leaf_node_next_leaf (set_leaf_node_next_leaf m v) = v := by
  unfold leaf_node_next_leaf set_leaf_node_next_leaf get_u32_at set_u32_at
  rw [readRange_writeRange_self]
  exact Nat.mod_eq_of_lt hv

theorem leaf_next_leaf_after_num_cells (m v : Nat) :
    leaf_node_next_leaf (set_leaf_node_num_cells m v) = leaf_node_next_leaf m := by
  unfold leaf_node_next_leaf set_leaf_node_num_cells get_u32_at set_u32_at
  rw [readRange_writeRange_above _ _ _ _ _ _ (by decide)]

/-- A write wholly inside the leaf header leaves every cell unchanged. -/
theorem cell_read_low_write (m v off len i : Nat) (h : off + len ≤ LEAF_NODE_HEADER_SIZE) :
    leaf_node_cell_read (writeRange m off len v) i = leaf_node_cell_read m i := by
  unfold leaf_node_cell_read leaf_node_cell_offset
  apply readRange_writeRange_above
  omega

theorem leaf_cells_list_low_write (m v off len : Nat) (h : off + len ≤ LEAF_NODE_HEADER_SIZE) :
    leaf_cells_list (writeRange m off len v) = leaf_cells_list m := by
  unfold leaf_cells_list
  apply List.map_congr_left
  intro j _
  exact cell_read_low_write m v off len j h

theorem spliced_cells_low_write (m v off len cell_num key : Nat) (row : Row)
    (h : off + len ≤ LEAF_NODE_HEADER_SIZE) :
    spliced_cells (writeRange m off len v) cell_num key row =
      spliced_cells m cell_num key row := by
  unfold spliced_cells
  rw [leaf_cells_list_low_write m v off len h]

/-- The gathering pass of the leaf split builds exactly the spec's
spliced cell sequence. -/
theorem leaf_gather_eq_spliced (old : Mem) (cell_num key : Nat) (row : Row)
    (hnc : leaf_node_num_cells old = LEAF_NODE_MAX_CELLS)
    (hc : cell_num ≤ LEAF_NODE_MAX_CELLS) :
    leaf_gather old cell_num key row = spliced_cells old cell_num key row := by
  have h13 : LEAF_NODE_MAX_CELLS = 13 := rfl
  have hrange : List.range 13 = [0, 1, 2, 3, 4, 5, 6, 7, 8, 9, 10, 11, 12] := rfl
  rw [h13] at hc
  interval_cases cell_num <;>
    simp only [leaf_gather, spliced_cells, leaf_cells_list, hnc, h13, hrange,
      spec_cell_bytes_eq, List.foldl_cons, List.foldl_nil, List.map_cons, List.map_nil,
      List.take_succ_cons, List.take_zero, List.take_nil, List.drop_succ_cons,
      List.drop_zero, List.drop_nil, List.nil_append, List.cons_append, List.append_nil,
      List.singleton_append, Nat.reduceEqDiff, Nat.reduceLT, Nat.reduceLeDiff, ge_iff_le,
      ite_true, ite_false, if_true, if_false, reduceIte]

/-- The length of the spliced sequence is max_leaf_cells + 1. -/
theorem spliced_cells_length (m : Mem) (cell_num key : Nat) (row : Row)
    (hc : cell_num ≤ LEAF_NODE_MAX_CELLS) :
    (spliced_cells m cell_num key row).length = LEAF_NODE_MAX_CELLS + 1 := by
  have hll : (leaf_cells_list m).length = LEAF_NODE_MAX_CELLS := by
    unfold leaf_cells_list
    rw [List.length_map, List.length_range]
  unfold spliced_cells
  simp only [List.length_append, List.length_take, List.length_drop, List.length_singleton,
    hll]
  omega

/-- Reading back cell i < 7 after the left copy yields spliced cell i. -/
theorem cell_read_copy_left (m : Mem) (cells : List Nat) (i : Nat)
    (hi : i < LEAF_NODE_LEFT_SPLIT_COUNT) (hl : cells.length = LEAF_NODE_MAX_CELLS + 1)
    (hb : ∀ j, cells.getD j 0 < 256 ^ LEAF_NODE_CELL_SIZE) :
    leaf_node_cell_read (leaf_copy_left m cells) i = cells.getD i 0 := by
  have h7 : LEAF_NODE_LEFT_SPLIT_COUNT = 7 := rfl
  have hrange : List.range 7 = [0, 1, 2, 3, 4, 5, 6] := rfl
  have hl14 : cells.length = 14 := hl
  rw [h7] at hi
  simp only [leaf_copy_left, h7, hrange, List.foldl_cons, List.foldl_nil, hl14,
    leaf_node_cell_write, leaf_node_cell_read, Nat.reduceLT, ite_true, if_true, reduceIte]
  interval_cases i
  all_goals repeat rw [readRange_writeRange_below _ _ _ _ _ _ (by decide)]
  all_goals rw [readRange_writeRange_self]
  all_goals exact Nat.mod_eq_of_lt (hb _)

/-- Reading back cell i < 7 of the new page after the right copy yields
spliced cell 7 + i. -/
theorem cell_read_copy_right (m : Mem) (cells : List Nat) (i : Nat)
    (hi : i < LEAF_NODE_RIGHT_SPLIT_COUNT) (hl : cells.length = LEAF_NODE_MAX_CELLS + 1)
    (hb : ∀ j, cells.getD j 0 < 256 ^ LEAF_NODE_CELL_SIZE) :
    leaf_node_cell_read (leaf_copy_right m cells) i =
      cells.getD (LEAF_NODE_LEFT_SPLIT_COUNT + i) 0 := by
  have h7 : LEAF_NODE_RIGHT_SPLIT_COUNT = 7 := rfl
  have hL : LEAF_NODE_LEFT_SPLIT_COUNT = 7 := rfl
  have hrange : List.range 7 = [0, 1, 2, 3, 4, 5, 6] := rfl
  have hl14 : cells.length = 14 := hl
  rw [h7] at hi
  simp only [leaf_copy_right, h7, hrange, List.foldl_cons, List.foldl_nil, hl14, hL,
    leaf_node_cell_write, leaf_node_cell_read, Nat.reduceAdd, Nat.reduceLT, ite_true,
    if_true, reduceIte]
  interval_cases i
  all_goals repeat rw [readRange_writeRange_below _ _ _ _ _ _ (by decide)]
  all_goals rw [readRange_writeRange_self]
  all_goals exact Nat.mod_eq_of_lt (hb _)

/-- The left copy writes only cell slots, leaving the header readable
as before. -/
theorem readRange_copy_left_low (m : Mem) (cells : List Nat) (off len : Nat)
    (h : off + len ≤ LEAF_NODE_HEADER_SIZE) (hl : cells.length = LEAF_NODE_MAX_CELLS + 1) :
    readRange (leaf_copy_left m cells) off len = readRange m off len := by
  have h7 : LEAF_NODE_LEFT_SPLIT_COUNT = 7 := rfl
  have hrange : List.range 7 = [0, 1, 2, 3, 4, 5, 6] := rfl
  have hl14 : cells.length = 14 := hl
  simp only [leaf_copy_left, h7, hrange, List.foldl_cons, List.foldl_nil, hl14,
    leaf_node_cell_write, Nat.reduceLT, ite_true, if_true, reduceIte]
  repeat rw [readRange_writeRange_below _ _ _ _ _ _ (by simp only [leaf_node_cell_offset]; omega)]

theorem readRange_copy_right_low (m : Mem) (cells : List Nat) (off len : Nat)
    (h : off + len ≤ LEAF_NODE_HEADER_SIZE) (hl : cells.length = LEAF_NODE_MAX_CELLS + 1) :
    readRange (leaf_copy_right m cells) off len = readRange m off len := by
  have h7 : LEAF_NODE_RIGHT_SPLIT_COUNT = 7 := rfl
  have hL : LEAF_NODE_LEFT_SPLIT_COUNT = 7 := rfl
  have hrange : List.range 7 = [0, 1, 2, 3, 4, 5, 6] := rfl
  have hl14 : cells.length = 14 := hl
  simp only [leaf_copy_right, h7, hL, hrange, List.foldl_cons, List.foldl_nil, hl14,
    leaf_node_cell_write, Nat.reduceAdd, Nat.reduceLT, ite_true, if_true, reduceIte]
  repeat rw [readRange_writeRange_below _ _ _ _ _ _ (by simp only [leaf_node_cell_offset]; omega)]

theorem cell_read_after_num_cells (m v i : Nat) :
    leaf_node_cell_read (set_leaf_node_num_cells m v) i = leaf_node_cell_read m i :=
  cell_read_low_write m v LEAF_NODE_NUM_CELLS_OFFSET 4 i (by decide)

theorem next_leaf_copy_left (m : Mem) (cells : List Nat)
    (hl : cells.length = LEAF_NODE_MAX_CELLS + 1) :
    leaf_node_next_leaf (leaf_copy_left m cells) = leaf_node_next_leaf m :=
  readRange_copy_left_low m cells LEAF_NODE_NEXT_LEAF_OFFSET 4 (by decide) hl

theorem next_leaf_copy_right (m : Mem) (cells : List Nat)
    (hl : cells.length = LEAF_NODE_MAX_CELLS + 1) :
    leaf_node_next_leaf (leaf_copy_right m cells) = leaf_node_next_leaf m :=
  readRange_copy_right_low m cells LEAF_NODE_NEXT_LEAF_OFFSET 4 (by decide) hl

theorem next_leaf_after_parent (m v : Nat) :
    leaf_node_next_leaf (set_node_parent m v) = leaf_node_next_leaf m :=
  readRange_writeRange_above m v PARENT_POINTER_OFFSET 4 LEAF_NODE_NEXT_LEAF_OFFSET 4
    (by decide)

/-- Claim C4: splitting a full leaf (num_cells = LEAF_NODE_MAX_CELLS)
at any insertion slot cell_num ≤ LEAF_NODE_MAX_CELLS distributes the
spec's spliced sequence of max + 1 = 14 cells — the existing cells with
the new key/value cell spliced in at cell_num — putting cells
[0, 7) into the old page, cells [7, 14) into the new page (so no cell
is lost or duplicated), setting both cell counts to 7, and linking
next_leaf(new) = old next_leaf(old) and next_leaf(old) = the new page
number.  The hypotheses say: the old page is resident, genuinely full,
the split slot is in range, the pager has a free slot whose number is
past the on-disk file range, and the page cache has its usual
TABLE_MAX_PAGES slots. -/
theorem C4_leaf_split_distribution (T : Table) (old_page_num cell_num key : Nat)
    (row : Row) (m : Mem)
    (hm : T.pager.pages.getD old_page_num none = some m)
    (hfull : leaf_node_num_cells m = LEAF_NODE_MAX_CELLS)
    (hcell : cell_num ≤ LEAF_NODE_MAX_CELLS)
    (hold : old_page_num < T.pager.num_pages)
    (hnew : T.pager.num_pages < TABLE_MAX_PAGES)
    (hmiss : T.pager.pages.getD T.pager.num_pages none = none)
    (hlen : T.pager.pages.length = TABLE_MAX_PAGES)
    (hfile : T.pager.file_length ≤ T.pager.num_pages * PAGE_SIZE) :
    ∃ T2,
      leaf_split_core T old_page_num cell_num key row = .ok (T.pager.num_pages, T2) ∧
      leaf_node_num_cells (pageMem T2 old_page_num) = LEAF_NODE_LEFT_SPLIT_COUNT ∧
      leaf_node_num_cells (pageMem T2 T.pager.num_pages) = LEAF_NODE_RIGHT_SPLIT_COUNT ∧
      (∀ i, i < LEAF_NODE_LEFT_SPLIT_COUNT →
        leaf_node_cell_read (pageMem T2 old_page_num) i =
          (spliced_cells m cell_num key row).getD i 0) ∧
      (∀ i, i < LEAF_NODE_RIGHT_SPLIT_COUNT →
        leaf_node_cell_read (pageMem T2 T.pager.num_pages) i =
          (spliced_cells m cell_num key row).getD (LEAF_NODE_LEFT_SPLIT_COUNT + i) 0) ∧
      leaf_node_next_leaf (pageMem T2 T.pager.num_pages) = leaf_node_next_leaf m ∧
      leaf_node_next_leaf (pageMem T2 old_page_num) = T.pager.num_pages ∧
      (spliced_cells m cell_num key row).length = LEAF_NODE_MAX_CELLS + 1 ∧
      LEAF_NODE_LEFT_SPLIT_COUNT = 7 ∧ LEAF_NODE_RIGHT_SPLIT_COUNT = 7 := by
  have h1 : getPageT T old_page_num = .ok (m, T) :=
    getPageT_hit T old_page_num m (by omega) hm
  have h2 : getPageT T T.pager.num_pages = .ok (0, { root_page_num := T.root_page_num, pager := { file := T.pager.file, file_length := T.pager.file_length, num_pages := T.pager.num_pages + 1, pages := (T.pager.pages.set T.pager.num_pages (some 0)) } }) :=
    getPageT_miss_fresh T T.pager.num_pages (by omega) hmiss hfile (le_refl _)
  have g3 : ((T.pager.pages.set T.pager.num_pages (some 0)).set T.pager.num_pages (some (set_leaf_node_next_leaf (init_leaf_node 0) (leaf_node_next_leaf m)))).getD old_page_num none = some m := by
    rw [list_getD_set_ne _ _ _ _ _ (by omega), list_getD_set_ne _ _ _ _ _ (by omega)]
    exact hm
  have h3 : getPageT ({ root_page_num := T.root_page_num, pager := { file := T.pager.file, file_length := T.pager.file_length, num_pages := T.pager.num_pages + 1, pages := ((T.pager.pages.set T.pager.num_pages (some 0)).set T.pager.num_pages (some (set_leaf_node_next_leaf (init_leaf_node 0) (leaf_node_next_leaf m)))) } }) old_page_num = .ok (m, { root_page_num := T.root_page_num, pager := { file := T.pager.file, file_length := T.pager.file_length, num_pages := T.pager.num_pages + 1, pages := ((T.pager.pages.set T.pager.num_pages (some 0)).set T.pager.num_pages (some (set_leaf_node_next_leaf (init_leaf_node 0) (leaf_node_next_leaf m)))) } }) :=
    getPageT_hit _ _ _ (by omega) g3
  have g4 : ((T.pager.pages.set T.pager.num_pages (some 0)).set T.pager.num_pages (some (set_leaf_node_next_leaf (init_leaf_node 0) (leaf_node_next_leaf m)))).getD T.pager.num_pages none = some (set_leaf_node_next_leaf (init_leaf_node 0) (leaf_node_next_leaf m)) := by
    rw [list_getD_set_self _ _ _ _ (by simp only [List.length_set, hlen]; omega)]
  have h4 : getPageT ({ root_page_num := T.root_page_num, pager := { file := T.pager.file, file_length := T.pager.file_length, num_pages := T.pager.num_pages + 1, pages := ((T.pager.pages.set T.pager.num_pages (some 0)).set T.pager.num_pages (some (set_leaf_node_next_leaf (init_leaf_node 0) (leaf_node_next_leaf m)))) } }) T.pager.num_pages = .ok (set_leaf_node_next_leaf (init_leaf_node 0) (leaf_node_next_leaf m), { root_page_num := T.root_page_num, pager := { file := T.pager.file, file_length := T.pager.file_length, num_pages := T.pager.num_pages + 1, pages := ((T.pager.pages.set T.pager.num_pages (some 0)).set T.pager.num_pages (some (set_leaf_node_next_leaf (init_leaf_node 0) (leaf_node_next_leaf m)))) } }) :=
    getPageT_hit _ _ _ (by omega) g4
  have g5 : (((T.pager.pages.set T.pager.num_pages (some 0)).set T.pager.num_pages (some (set_leaf_node_next_leaf (init_leaf_node 0) (leaf_node_next_leaf m)))).set T.pager.num_pages (some (set_node_parent (set_leaf_node_next_leaf (init_leaf_node 0) (leaf_node_next_leaf m)) (node_parent m)))).getD old_page_num none = some m := by
    rw [list_getD_set_ne _ _ _ _ _ (by omega), list_getD_set_ne _ _ _ _ _ (by omega),
      list_getD_set_ne _ _ _ _ _ (by omega)]
    exact hm
  have h5 : getPageT ({ root_page_num := T.root_page_num, pager := { file := T.pager.file, file_length := T.pager.file_length, num_pages := T.pager.num_pages + 1, pages := (((T.pager.pages.set T.pager.num_pages (some 0)).set T.pager.num_pages (some (set_leaf_node_next_leaf (init_leaf_node 0) (leaf_node_next_leaf m)))).set T.pager.num_pages (some (set_node_parent (set_leaf_node_next_leaf (init_leaf_node 0) (leaf_node_next_leaf m)) (node_parent m)))) } }) old_page_num = .ok (m, { root_page_num := T.root_page_num, pager := { file := T.pager.file, file_length := T.pager.file_length, num_pages := T.pager.num_pages + 1, pages := (((T.pager.pages.set T.pager.num_pages (some 0)).set T.pager.num_pages (some (set_leaf_node_next_leaf (init_leaf_node 0) (leaf_node_next_leaf m)))).set T.pager.num_pages (some (set_node_parent (set_leaf_node_next_leaf (init_leaf_node 0) (leaf_node_next_leaf m)) (node_parent m)))) } }) :=
    getPageT_hit _ _ _ (by omega) g5
  have g6 : ((((T.pager.pages.set T.pager.num_pages (some 0)).set T.pager.num_pages (some (set_leaf_node_next_leaf (init_leaf_node 0) (leaf_node_next_leaf m)))).set T.pager.num_pages (some (set_node_parent (set_leaf_node_next_leaf (init_leaf_node 0) (leaf_node_next_leaf m)) (node_parent m)))).set old_page_num (some (set_leaf_node_next_leaf m T.pager.num_pages))).getD old_page_num none = some (set_leaf_node_next_leaf m T.pager.num_pages) := by
    rw [list_getD_set_self _ _ _ _ (by simp only [List.length_set, hlen]; omega)]
  have h6 : getPageT ({ root_page_num := T.root_page_num, pager := { file := T.pager.file, file_length := T.pager.file_length, num_pages := T.pager.num_pages + 1, pages := ((((T.pager.pages.set T.pager.num_pages (some 0)).set T.pager.num_pages (some (set_leaf_node_next_leaf (init_leaf_node 0) (leaf_node_next_leaf m)))).set T.pager.num_pages (some (set_node_parent (set_leaf_node_next_leaf (init_leaf_node 0) (leaf_node_next_leaf m)) (node_parent m)))).set old_page_num (some (set_leaf_node_next_leaf m T.pager.num_pages))) } }) old_page_num = .ok (set_leaf_node_next_leaf m T.pager.num_pages, { root_page_num := T.root_page_num, pager := { file := T.pager.file, file_length := T.pager.file_length, num_pages := T.pager.num_pages + 1, pages := ((((T.pager.pages.set T.pager.num_pages (some 0)).set T.pager.num_pages (some (set_leaf_node_next_leaf (init_leaf_node 0) (leaf_node_next_leaf m)))).set T.pager.num_pages (some (set_node_parent (set_leaf_node_next_leaf (init_leaf_node 0) (leaf_node_next_leaf m)) (node_parent m)))).set old_page_num (some (set_leaf_node_next_leaf m T.pager.num_pages))) } }) :=
    getPageT_hit _ _ _ (by omega) g6
  have g7 : (((((T.pager.pages.set T.pager.num_pages (some 0)).set T.pager.num_pages (some (set_leaf_node_next_leaf (init_leaf_node 0) (leaf_node_next_leaf m)))).set T.pager.num_pages (some (set_node_parent (set_leaf_node_next_leaf (init_leaf_node 0) (leaf_node_next_leaf m)) (node_parent m)))).set old_page_num (some (set_leaf_node_next_leaf m T.pager.num_pages))).set old_page_num (some (set_leaf_node_num_cells (leaf_copy_left (set_leaf_node_next_leaf m T.pager.num_pages) (leaf_gather (set_leaf_node_next_leaf m T.pager.num_pages) cell_num key row)) LEAF_NODE_LEFT_SPLIT_COUNT))).getD T.pager.num_pages none = some (set_node_parent (set_leaf_node_next_leaf (init_leaf_node 0) (leaf_node_next_leaf m)) (node_parent m)) := by
    rw [list_getD_set_ne _ _ _ _ _ (by omega), list_getD_set_ne _ _ _ _ _ (by omega),
      list_getD_set_self _ _ _ _ (by simp only [List.length_set, hlen]; omega)]
  have h7 : getPageT ({ root_page_num := T.root_page_num, pager := { file := T.pager.file, file_length := T.pager.file_length, num_pages := T.pager.num_pages + 1, pages := (((((T.pager.pages.set T.pager.num_pages (some 0)).set T.pager.num_pages (some (set_leaf_node_next_leaf (init_leaf_node 0) (leaf_node_next_leaf m)))).set T.pager.num_pages (some (set_node_parent (set_leaf_node_next_leaf (init_leaf_node 0) (leaf_node_next_leaf m)) (node_parent m)))).set old_page_num (some (set_leaf_node_next_leaf m T.pager.num_pages))).set old_page_num (some (set_leaf_node_num_cells (leaf_copy_left (set_leaf_node_next_leaf m T.pager.num_pages) (leaf_gather (set_leaf_node_next_leaf m T.pager.num_pages) cell_num key row)) LEAF_NODE_LEFT_SPLIT_COUNT))) } }) T.pager.num_pages = .ok (set_node_parent (set_leaf_node_next_leaf (init_leaf_node 0) (leaf_node_next_leaf m)) (node_parent m), { root_page_num := T.root_page_num, pager := { file := T.pager.file, file_length := T.pager.file_length, num_pages := T.pager.num_pages + 1, pages := (((((T.pager.pages.set T.pager.num_pages (some 0)).set T.pager.num_pages (some (set_leaf_node_next_leaf (init_leaf_node 0) (leaf_node_next_leaf m)))).set T.pager.num_pages (some (set_node_parent (set_leaf_node_next_leaf (init_leaf_node 0) (leaf_node_next_leaf m)) (node_parent m)))).set old_page_num (some (set_leaf_node_next_leaf m T.pager.num_pages))).set old_page_num (some (set_leaf_node_num_cells (leaf_copy_left (set_leaf_node_next_leaf m T.pager.num_pages) (leaf_gather (set_leaf_node_next_leaf m T.pager.num_pages) cell_num key row)) LEAF_NODE_LEFT_SPLIT_COUNT))) } }) :=
    getPageT_hit _ _ _ (by omega) g7
  have heval : leaf_split_core T old_page_num cell_num key row =
      .ok (T.pager.num_pages, { root_page_num := T.root_page_num, pager := { file := T.pager.file, file_length := T.pager.file_length, num_pages := T.pager.num_pages + 1, pages := ((((((T.pager.pages.set T.pager.num_pages (some 0)).set T.pager.num_pages (some (set_leaf_node_next_leaf (init_leaf_node 0) (leaf_node_next_leaf m)))).set T.pager.num_pages (some (set_node_parent (set_leaf_node_next_leaf (init_leaf_node 0) (leaf_node_next_leaf m)) (node_parent m)))).set old_page_num (some (set_leaf_node_next_leaf m T.pager.num_pages))).set old_page_num (some (set_leaf_node_num_cells (leaf_copy_left (set_leaf_node_next_leaf m T.pager.num_pages) (leaf_gather (set_leaf_node_next_leaf m T.pager.num_pages) cell_num key row)) LEAF_NODE_LEFT_SPLIT_COUNT))).set T.pager.num_pages (some (set_leaf_node_num_cells (leaf_copy_right (set_node_parent (set_leaf_node_next_leaf (init_leaf_node 0) (leaf_node_next_leaf m)) (node_parent m)) (leaf_gather (set_leaf_node_next_leaf m T.pager.num_pages) cell_num key row)) LEAF_NODE_RIGHT_SPLIT_COUNT))) } }) := by
    simp only [leaf_split_core, get_unused_page_num, h1, h2, h3, h4, h5, h6, h7, putPage,
      except_bind_ok, except_pure_eq]
  have hnc1 : leaf_node_num_cells (set_leaf_node_next_leaf m T.pager.num_pages) = LEAF_NODE_MAX_CELLS := by
    rw [leaf_num_cells_after_next_leaf, hfull]
  have hgather : leaf_gather (set_leaf_node_next_leaf m T.pager.num_pages) cell_num key row = spliced_cells m cell_num key row := by
    rw [leaf_gather_eq_spliced _ _ _ _ hnc1 hcell]
    exact spliced_cells_low_write m T.pager.num_pages LEAF_NODE_NEXT_LEAF_OFFSET 4 cell_num key row
      (by decide)
  have hlen2 : (leaf_gather (set_leaf_node_next_leaf m T.pager.num_pages) cell_num key row).length = LEAF_NODE_MAX_CELLS + 1 := by
    rw [hgather]
    exact spliced_cells_length m cell_num key row hcell
  have hb2 : ∀ j, (leaf_gather (set_leaf_node_next_leaf m T.pager.num_pages) cell_num key row).getD j 0 < 256 ^ LEAF_NODE_CELL_SIZE := by
    intro j
    rw [hgather]
    exact getD_bound (pow_pos (by norm_num) _) (spliced_cells_bound m cell_num key row) j
  have hpo : pageMem ({ root_page_num := T.root_page_num, pager := { file := T.pager.file, file_length := T.pager.file_length, num_pages := T.pager.num_pages + 1, pages := ((((((T.pager.pages.set T.pager.num_pages (some 0)).set T.pager.num_pages (some (set_leaf_node_next_leaf (init_leaf_node 0) (leaf_node_next_leaf m)))).set T.pager.num_pages (some (set_node_parent (set_leaf_node_next_leaf (init_leaf_node 0) (leaf_node_next_leaf m)) (node_parent m)))).set old_page_num (some (set_leaf_node_next_leaf m T.pager.num_pages))).set old_page_num (some (set_leaf_node_num_cells (leaf_copy_left (set_leaf_node_next_leaf m T.pager.num_pages) (leaf_gather (set_leaf_node_next_leaf m T.pager.num_pages) cell_num key row)) LEAF_NODE_LEFT_SPLIT_COUNT))).set T.pager.num_pages (some (set_leaf_node_num_cells (leaf_copy_right (set_node_parent (set_leaf_node_next_leaf (init_leaf_node 0) (leaf_node_next_leaf m)) (node_parent m)) (leaf_gather (set_leaf_node_next_leaf m T.pager.num_pages) cell_num key row)) LEAF_NODE_RIGHT_SPLIT_COUNT))) } }) old_page_num = set_leaf_node_num_cells (leaf_copy_left (set_leaf_node_next_leaf m T.pager.num_pages) (leaf_gather (set_leaf_node_next_leaf m T.pager.num_pages) cell_num key row)) LEAF_NODE_LEFT_SPLIT_COUNT := by
    simp only [pageMem]
    rw [list_getD_set_ne _ _ _ _ _ (by omega),
      list_getD_set_self _ _ _ _ (by simp only [List.length_set, hlen]; omega)]
    rfl
  have hpn : pageMem ({ root_page_num := T.root_page_num, pager := { file := T.pager.file, file_length := T.pager.file_length, num_pages := T.pager.num_pages + 1, pages := ((((((T.pager.pages.set T.pager.num_pages (some 0)).set T.pager.num_pages (some (set_leaf_node_next_leaf (init_leaf_node 0) (leaf_node_next_leaf m)))).set T.pager.num_pages (some (set_node_parent (set_leaf_node_next_leaf (init_leaf_node 0) (leaf_node_next_leaf m)) (node_parent m)))).set old_page_num (some (set_leaf_node_next_leaf m T.pager.num_pages))).set old_page_num (some (set_leaf_node_num_cells (leaf_copy_left (set_leaf_node_next_leaf m T.pager.num_pages) (leaf_gather (set_leaf_node_next_leaf m T.pager.num_pages) cell_num key row)) LEAF_NODE_LEFT_SPLIT_COUNT))).set T.pager.num_pages (some (set_leaf_node_num_cells (leaf_copy_right (set_node_parent (set_leaf_node_next_leaf (init_leaf_node 0) (leaf_node_next_leaf m)) (node_parent m)) (leaf_gather (set_leaf_node_next_leaf m T.pager.num_pages) cell_num key row)) LEAF_NODE_RIGHT_SPLIT_COUNT))) } }) T.pager.num_pages = set_leaf_node_num_cells (leaf_copy_right (set_node_parent (set_leaf_node_next_leaf (init_leaf_node 0) (leaf_node_next_leaf m)) (node_parent m)) (leaf_gather (set_leaf_node_next_leaf m T.pager.num_pages) cell_num key row)) LEAF_NODE_RIGHT_SPLIT_COUNT := by
    simp only [pageMem]
    rw [list_getD_set_self _ _ _ _ (by simp only [List.length_set, hlen]; omega)]
    rfl
  have hNlt : T.pager.num_pages < 256 ^ 4 := by
    have h4p : (256 : Nat) ^ 4 = 4294967296 := by norm_num
    have hT : TABLE_MAX_PAGES = 100 := rfl
    omega
  refine ⟨_, heval, ?_, ?_, ?_, ?_, ?_, ?_, ?_, rfl, rfl⟩
  · rw [hpo, leaf_num_cells_set_val _ _ (by decide)]
  · rw [hpn, leaf_num_cells_set_val _ _ (by decide)]
  · intro i hi
    rw [hpo, cell_read_after_num_cells, cell_read_copy_left _ _ _ hi hlen2 hb2, hgather]
  · intro i hi
    rw [hpn, cell_read_after_num_cells, cell_read_copy_right _ _ _ hi hlen2 hb2, hgather]
  · rw [hpn, leaf_next_leaf_after_num_cells, next_leaf_copy_right _ _ hlen2,
      next_leaf_after_parent,
      leaf_next_leaf_set_val _ _
        (show leaf_node_next_leaf m < 256 ^ 4 from readRange_lt m LEAF_NODE_NEXT_LEAF_OFFSET 4)]
  · rw [hpo, leaf_next_leaf_after_num_cells, next_leaf_copy_left _ _ hlen2,
      leaf_next_leaf_set_val _ _ hNlt]
  · exact spliced_cells_length m cell_num key row hcell

/-- Witness for C4 on the concrete full leaf reached after 13 inserts
(chainT13, root page 0 holding keys 1..13), splitting at the append
slot 13 with key 22. -/
theorem C4_leaf_split_distribution_witness :
    ∃ T2,
      leaf_split_core chainT13 0 13 22 (mkRow 22 0) = .ok (chainT13.pager.num_pages, T2) ∧
      leaf_node_num_cells (pageMem T2 0) = LEAF_NODE_LEFT_SPLIT_COUNT ∧
      leaf_node_num_cells (pageMem T2 chainT13.pager.num_pages) =
        LEAF_NODE_RIGHT_SPLIT_COUNT ∧
      (∀ i, i < LEAF_NODE_LEFT_SPLIT_COUNT →
        leaf_node_cell_read (pageMem T2 0) i =
          (spliced_cells pg13 13 22 (mkRow 22 0)).getD i 0) ∧
      (∀ i, i < LEAF_NODE_RIGHT_SPLIT_COUNT →
        leaf_node_cell_read (pageMem T2 chainT13.pager.num_pages) i =
          (spliced_cells pg13 13 22 (mkRow 22 0)).getD (LEAF_NODE_LEFT_SPLIT_COUNT + i) 0) ∧
      leaf_node_next_leaf (pageMem T2 chainT13.pager.num_pages) = leaf_node_next_leaf pg13 ∧
      leaf_node_next_leaf (pageMem T2 0) = chainT13.pager.num_pages ∧
      (spliced_cells pg13 13 22 (mkRow 22 0)).length = LEAF_NODE_MAX_CELLS + 1 ∧
      LEAF_NODE_LEFT_SPLIT_COUNT = 7 ∧ LEAF_NODE_RIGHT_SPLIT_COUNT = 7 :=
  C4_leaf_split_distribution chainT13 0 13 22 (mkRow 22 0) pg13 (by decide) (by decide)
    (by decide) (by decide) (by decide) (by decide) (by decide) (by decide)

theorem get_page_hit (p : Pager) (n : Nat) (pg : Mem)
    (h1 : n < TABLE_MAX_PAGES) (h2 : p.pages.getD n none = some pg) :
    get_page p n = .ok (pg, p) := by
  unfold get_page
  rw [if_neg (by omega), h2]

/-- One step of get_node_max_key on a resident nonempty leaf: the max
key is the key of the last cell. -/
theorem get_node_max_key_step (fuel : Nat) (p : Pager) (n : Nat) (pg : Mem)
    (h1 : n < TABLE_MAX_PAGES) (h2 : p.pages.getD n none = some pg)
    (ht : get_node_type pg = .ok .leaf) (hnz : ¬ leaf_node_num_cells pg = 0) :
    get_node_max_key (fuel + 1) p n =
      .ok (leaf_node_key pg (leaf_node_num_cells pg - 1), p) := by
  have e : get_node_max_key (fuel + 1) p n =
      (match get_page p n with
       | .error e => .error e
       | .ok (node, p1) =>
         match get_node_type node with
         | .error e => .error e
         | .ok .leaf =>
           let num_cells := leaf_node_num_cells node
           if num_cells = 0 then .error .emptyLeafMaxKey
           else .ok (leaf_node_key node (num_cells - 1), p1)
         | .ok .internal =>
           get_node_max_key fuel p1 (internal_node_right_child node)) := rfl
  rw [e]
  simp only [get_page_hit p n pg h1 h2, ht, if_neg hnz]

theorem internal_num_keys_set_val (m v : Nat) (hv : v < 256 ^ 4) :
    internal_node_num_keys (set_internal_node_num_keys m v) = v := by
  unfold internal_node_num_keys set_internal_node_num_keys get_u32_at set_u32_at
  rw [readRange_writeRange_self]
  exact Nat.mod_eq_of_lt hv

/-- Writing back the full page read of m restores m. -/
theorem writeRange_copy_full (m : Mem) (hm : m < 256 ^ PAGE_SIZE) :
    writeRange 0 0 PAGE_SIZE (readRange m 0 PAGE_SIZE) = m := by
  rw [writeRange_zero_full, readRange_zero_off, Nat.mod_mod_of_dvd m dvd_rfl,
    Nat.mod_eq_of_lt hm]

theorem leaf_key_low_write (m v off len j : Nat) (h : off + len ≤ LEAF_NODE_HEADER_SIZE) :
    leaf_node_key (writeRange m off len v) j = leaf_node_key m j := by
  unfold leaf_node_key leaf_node_cell_offset get_u32_at
  apply readRange_writeRange_above
  omega

/-- Claim C6: create_new_root on a table whose (leaf) root page is
resident and nonempty copies the old root page bytes verbatim into the
freshly allocated left-child page (the next unused page number) with
is_root cleared and parent set to the root page number, and rewrites
the root page — whose number never changes — as an internal node with
is_root = true, num_keys = 1, cell 0 holding the left child page and
the left child's max key (the old root's last cell key), and the
supplied right page as right child; the right child's parent pointer is
set to the root page number as well. -/
theorem C6_create_new_root_promotes_leaf_root (fuel : Nat) (T : Table)
    (right_child_page_num : Nat) (m mr : Mem)
    (hroot : T.pager.pages.getD T.root_page_num none = some m)
    (hleaf : readByte m NODE_TYPE_OFFSET = 1)
    (hm4096 : m < 256 ^ PAGE_SIZE)
    (hcells : ¬ leaf_node_num_cells m = 0)
    (hcell0 : ¬ get_u32_at m (internal_node_cell_offset 0) = INVALID_PAGE_NUM)
    (hR : T.root_page_num < T.pager.num_pages)
    (hN : T.pager.num_pages < TABLE_MAX_PAGES)
    (hmiss : T.pager.pages.getD T.pager.num_pages none = none)
    (hlen : T.pager.pages.length = TABLE_MAX_PAGES)
    (hfile : T.pager.file_length ≤ T.pager.num_pages * PAGE_SIZE)
    (hright : T.pager.pages.getD right_child_page_num none = some mr)
    (hrR : ¬ right_child_page_num = T.root_page_num)
    (hrN : ¬ right_child_page_num = T.pager.num_pages)
    (hrb : right_child_page_num < TABLE_MAX_PAGES) :
    ∃ T2,
      create_new_root (fuel + 1) T right_child_page_num = .ok T2 ∧
      T2.root_page_num = T.root_page_num ∧
      pageMem T2 T.pager.num_pages =
        set_node_parent (set_node_root m false) T.root_page_num ∧
      is_node_root (pageMem T2 T.pager.num_pages) = false ∧
      node_parent (pageMem T2 T.pager.num_pages) = T.root_page_num ∧
      get_node_type (pageMem T2 T.root_page_num) = .ok .internal ∧
      is_node_root (pageMem T2 T.root_page_num) = true ∧
      internal_node_num_keys (pageMem T2 T.root_page_num) = 1 ∧
      internal_node_child_get (pageMem T2 T.root_page_num) 0 = .ok T.pager.num_pages ∧
      internal_node_key_at (pageMem T2 T.root_page_num) 0 =
        leaf_node_key m (leaf_node_num_cells m - 1) ∧
      internal_node_right_child (pageMem T2 T.root_page_num) = right_child_page_num ∧
      node_parent (pageMem T2 right_child_page_num) = T.root_page_num := by
  have hT100 : TABLE_MAX_PAGES = 100 := rfl
  have hI : INVALID_PAGE_NUM = 4294967295 := rfl
  have h2p32 : (256 : Nat) ^ 4 = 4294967296 := by norm_num
  have hNlt : T.pager.num_pages < 256 ^ 4 := by omega
  have hRlt : T.root_page_num < 256 ^ 4 := by omega
  have hrlt : right_child_page_num < 256 ^ 4 := by omega
  have hgt : get_node_type m = .ok .leaf := by
    unfold get_node_type
    rw [hleaf]
  have h1 : getPageT T T.root_page_num = .ok (m, T) := getPageT_hit T T.root_page_num m (by omega) hroot
  have h2 : getPageT T T.pager.num_pages = .ok (0, { root_page_num := T.root_page_num, pager := { file := T.pager.file, file_length := T.pager.file_length, num_pages := T.pager.num_pages + 1, pages := (T.pager.pages.set T.pager.num_pages (some 0)) } }) :=
    getPageT_miss_fresh T T.pager.num_pages (by omega) hmiss hfile (le_refl _)
  have hbm : cnr_before_max T right_child_page_num = .ok ({ root_page_num := T.root_page_num, pager := { file := T.pager.file, file_length := T.pager.file_length, num_pages := T.pager.num_pages + 1, pages := ((T.pager.pages.set T.pager.num_pages (some 0)).set T.pager.num_pages (some (set_node_root m false))) } }) := by
    simp only [cnr_before_max, get_unused_page_num, h1, h2, hgt, putPage,
      writeRange_copy_full m hm4096, except_bind_ok, except_pure_eq,
      Bool.false_eq_true, if_false, ite_false, reduceIte]
  have hb0 : readByte (set_node_root m false) NODE_TYPE_OFFSET = 1 := by
    unfold set_node_root readByte
    rw [readRange_writeRange_below _ _ _ _ _ _ (by decide)]
    exact hleaf
  have htL0 : get_node_type (set_node_root m false) = .ok .leaf := by
    unfold get_node_type
    rw [hb0]
  have hncL0 : leaf_node_num_cells (set_node_root m false) = leaf_node_num_cells m := by
    unfold set_node_root leaf_node_num_cells get_u32_at
    rw [readRange_writeRange_above _ _ _ _ _ _ (by decide)]
  have hkL0 : ∀ j, leaf_node_key (set_node_root m false) j = leaf_node_key m j := fun j =>
    leaf_key_low_write m _ IS_ROOT_OFFSET 1 j (by decide)
  have gmx : (((T.pager.pages.set T.pager.num_pages (some 0)).set T.pager.num_pages (some (set_node_root m false)))).getD T.pager.num_pages none = some (set_node_root m false) := by
    rw [list_getD_set_self _ _ _ _ (by simp only [List.length_set, hlen]; omega)]
  have hmx : get_node_max_key (fuel + 1) ({ file := T.pager.file, file_length := T.pager.file_length, num_pages := T.pager.num_pages + 1, pages := ((T.pager.pages.set T.pager.num_pages (some 0)).set T.pager.num_pages (some (set_node_root m false))) }) T.pager.num_pages =
      .ok (leaf_node_key (set_node_root m false) (leaf_node_num_cells (set_node_root m false) - 1), { file := T.pager.file, file_length := T.pager.file_length, num_pages := T.pager.num_pages + 1, pages := ((T.pager.pages.set T.pager.num_pages (some 0)).set T.pager.num_pages (some (set_node_root m false))) }) :=
    get_node_max_key_step fuel ({ file := T.pager.file, file_length := T.pager.file_length, num_pages := T.pager.num_pages + 1, pages := ((T.pager.pages.set T.pager.num_pages (some 0)).set T.pager.num_pages (some (set_node_root m false))) }) T.pager.num_pages (set_node_root m false) (by omega) gmx htL0
      (by rw [hncL0]; exact hcells)
  have g6 : (((T.pager.pages.set T.pager.num_pages (some 0)).set T.pager.num_pages (some (set_node_root m false)))).getD T.root_page_num none = some m := by
    rw [list_getD_set_ne _ _ _ _ _ (by omega), list_getD_set_ne _ _ _ _ _ (by omega)]
    exact hroot
  have h6 : getPageT ({ root_page_num := T.root_page_num, pager := { file := T.pager.file, file_length := T.pager.file_length, num_pages := T.pager.num_pages + 1, pages := ((T.pager.pages.set T.pager.num_pages (some 0)).set T.pager.num_pages (some (set_node_root m false))) } }) T.root_page_num = .ok (m, { root_page_num := T.root_page_num, pager := { file := T.pager.file, file_length := T.pager.file_length, num_pages := T.pager.num_pages + 1, pages := ((T.pager.pages.set T.pager.num_pages (some 0)).set T.pager.num_pages (some (set_node_root m false))) } }) :=
    getPageT_hit _ _ _ (by omega) g6
  have hnk1 : internal_node_num_keys (set_internal_node_num_keys (set_node_root (init_internal_node m) true) 1) = 1 :=
    internal_num_keys_set_val _ 1 (by decide)
  have hcread : get_u32_at (set_internal_node_num_keys (set_node_root (init_internal_node m) true) 1) (internal_node_cell_offset 0) =
      get_u32_at m (internal_node_cell_offset 0) := by
    simp only [set_internal_node_right_child, set_internal_node_key,
      set_internal_node_num_keys, set_node_root, init_internal_node, set_node_type,
      set_node_parent, set_u32_at, get_u32_at, internal_node_cell_offset,
      INTERNAL_NODE_HEADER_SIZE, INTERNAL_NODE_CELL_SIZE, INTERNAL_NODE_CHILD_SIZE,
      INTERNAL_NODE_KEY_OFFSET, INTERNAL_NODE_NUM_KEYS_OFFSET,
      INTERNAL_NODE_NUM_KEYS_SIZE, INTERNAL_NODE_RIGHT_CHILD_OFFSET,
      INTERNAL_NODE_RIGHT_CHILD_SIZE, COMMON_NODE_HEADER_SIZE, NODE_TYPE_OFFSET,
      NODE_TYPE_SIZE, IS_ROOT_OFFSET, IS_ROOT_SIZE, PARENT_POINTER_OFFSET,
      PARENT_POINTER_SIZE, Nat.reduceAdd, Nat.reduceMul]
    repeat first
      | rw [readRange_writeRange_below _ _ _ _ _ _ (by decide)]
      | rw [readRange_writeRange_above _ _ _ _ _ _ (by decide)]
  have hcs : internal_node_child_set (set_internal_node_num_keys (set_node_root (init_internal_node m) true) 1) 0 T.pager.num_pages = .ok (set_u32_at (set_internal_node_num_keys (set_node_root (init_internal_node m) true) 1) (internal_node_cell_offset 0) T.pager.num_pages) := by
    unfold internal_node_child_set
    simp only [hnk1, hcread, gt_iff_lt, Nat.reduceLT, Nat.reduceEqDiff, reduceIte,
      if_false, ite_false, if_neg hcell0]
  have g8 : ((((T.pager.pages.set T.pager.num_pages (some 0)).set T.pager.num_pages (some (set_node_root m false))).set T.root_page_num (some (set_internal_node_right_child (set_internal_node_key (set_u32_at (set_internal_node_num_keys (set_node_root (init_internal_node m) true) 1) (internal_node_cell_offset 0) T.pager.num_pages) 0 (leaf_node_key m (leaf_node_num_cells m - 1))) right_child_page_num)))).getD T.pager.num_pages none = some (set_node_root m false) := by
    rw [list_getD_set_ne _ _ _ _ _ (by omega)]
    exact gmx
  have h8 : getPageT ({ root_page_num := T.root_page_num, pager := { file := T.pager.file, file_length := T.pager.file_length, num_pages := T.pager.num_pages + 1, pages := (((T.pager.pages.set T.pager.num_pages (some 0)).set T.pager.num_pages (some (set_node_root m false))).set T.root_page_num (some (set_internal_node_right_child (set_internal_node_key (set_u32_at (set_internal_node_num_keys (set_node_root (init_internal_node m) true) 1) (internal_node_cell_offset 0) T.pager.num_pages) 0 (leaf_node_key m (leaf_node_num_cells m - 1))) right_child_page_num))) } }) T.pager.num_pages = .ok (set_node_root m false, { root_page_num := T.root_page_num, pager := { file := T.pager.file, file_length := T.pager.file_length, num_pages := T.pager.num_pages + 1, pages := (((T.pager.pages.set T.pager.num_pages (some 0)).set T.pager.num_pages (some (set_node_root m false))).set T.root_page_num (some (set_internal_node_right_child (set_internal_node_key (set_u32_at (set_internal_node_num_keys (set_node_root (init_internal_node m) true) 1) (internal_node_cell_offset 0) T.pager.num_pages) 0 (leaf_node_key m (leaf_node_num_cells m - 1))) right_child_page_num))) } }) :=
    getPageT_hit _ _ _ (by omega) g8
  have g10 : (((((T.pager.pages.set T.pager.num_pages (some 0)).set T.pager.num_pages (some (set_node_root m false))).set T.root_page_num (some (set_internal_node_right_child (set_internal_node_key (set_u32_at (set_internal_node_num_keys (set_node_root (init_internal_node m) true) 1) (internal_node_cell_offset 0) T.pager.num_pages) 0 (leaf_node_key m (leaf_node_num_cells m - 1))) right_child_page_num))).set T.pager.num_pages (some (set_node_parent (set_node_root m false) T.root_page_num)))).getD right_child_page_num none = some mr := by
    rw [list_getD_set_ne _ _ _ _ _ (by omega), list_getD_set_ne _ _ _ _ _ (by omega),
      list_getD_set_ne _ _ _ _ _ (by omega), list_getD_set_ne _ _ _ _ _ (by omega)]
    exact hright
  have h10 : getPageT ({ root_page_num := T.root_page_num, pager := { file := T.pager.file, file_length := T.pager.file_length, num_pages := T.pager.num_pages + 1, pages := ((((T.pager.pages.set T.pager.num_pages (some 0)).set T.pager.num_pages (some (set_node_root m false))).set T.root_page_num (some (set_internal_node_right_child (set_internal_node_key (set_u32_at (set_internal_node_num_keys (set_node_root (init_internal_node m) true) 1) (internal_node_cell_offset 0) T.pager.num_pages) 0 (leaf_node_key m (leaf_node_num_cells m - 1))) right_child_page_num))).set T.pager.num_pages (some (set_node_parent (set_node_root m false) T.root_page_num))) } }) right_child_page_num = .ok (mr, { root_page_num := T.root_page_num, pager := { file := T.pager.file, file_length := T.pager.file_length, num_pages := T.pager.num_pages + 1, pages := ((((T.pager.pages.set T.pager.num_pages (some 0)).set T.pager.num_pages (some (set_node_root m false))).set T.root_page_num (some (set_internal_node_right_child (set_internal_node_key (set_u32_at (set_internal_node_num_keys (set_node_root (init_internal_node m) true) 1) (internal_node_cell_offset 0) T.pager.num_pages) 0 (leaf_node_key m (leaf_node_num_cells m - 1))) right_child_page_num))).set T.pager.num_pages (some (set_node_parent (set_node_root m false) T.root_page_num))) } }) :=
    getPageT_hit _ _ _ (by omega) g10
  have heval : create_new_root (fuel + 1) T right_child_page_num = .ok ({ root_page_num := T.root_page_num, pager := { file := T.pager.file, file_length := T.pager.file_length, num_pages := T.pager.num_pages + 1, pages := (((((T.pager.pages.set T.pager.num_pages (some 0)).set T.pager.num_pages (some (set_node_root m false))).set T.root_page_num (some (set_internal_node_right_child (set_internal_node_key (set_u32_at (set_internal_node_num_keys (set_node_root (init_internal_node m) true) 1) (internal_node_cell_offset 0) T.pager.num_pages) 0 (leaf_node_key m (leaf_node_num_cells m - 1))) right_child_page_num))).set T.pager.num_pages (some (set_node_parent (set_node_root m false) T.root_page_num))).set right_child_page_num (some (set_node_parent mr T.root_page_num))) } }) := by
    simp only [create_new_root, get_unused_page_num, hbm, hmx, hncL0, hkL0, h6, hcs, h8,
      h10, putPage, except_bind_ok, except_pure_eq]
  have hpN : pageMem ({ root_page_num := T.root_page_num, pager := { file := T.pager.file, file_length := T.pager.file_length, num_pages := T.pager.num_pages + 1, pages := (((((T.pager.pages.set T.pager.num_pages (some 0)).set T.pager.num_pages (some (set_node_root m false))).set T.root_page_num (some (set_internal_node_right_child (set_internal_node_key (set_u32_at (set_internal_node_num_keys (set_node_root (init_internal_node m) true) 1) (internal_node_cell_offset 0) T.pager.num_pages) 0 (leaf_node_key m (leaf_node_num_cells m - 1))) right_child_page_num))).set T.pager.num_pages (some (set_node_parent (set_node_root m false) T.root_page_num))).set right_child_page_num (some (set_node_parent mr T.root_page_num))) } }) T.pager.num_pages = set_node_parent (set_node_root m false) T.root_page_num := by
    simp only [pageMem]
    rw [list_getD_set_ne _ _ _ _ _ (by omega),
      list_getD_set_self _ _ _ _ (by simp only [List.length_set, hlen]; omega)]
    rfl
  have hpR : pageMem ({ root_page_num := T.root_page_num, pager := { file := T.pager.file, file_length := T.pager.file_length, num_pages := T.pager.num_pages + 1, pages := (((((T.pager.pages.set T.pager.num_pages (some 0)).set T.pager.num_pages (some (set_node_root m false))).set T.root_page_num (some (set_internal_node_right_child (set_internal_node_key (set_u32_at (set_internal_node_num_keys (set_node_root (init_internal_node m) true) 1) (internal_node_cell_offset 0) T.pager.num_pages) 0 (leaf_node_key m (leaf_node_num_cells m - 1))) right_child_page_num))).set T.pager.num_pages (some (set_node_parent (set_node_root m false) T.root_page_num))).set right_child_page_num (some (set_node_parent mr T.root_page_num))) } }) T.root_page_num = set_internal_node_right_child (set_internal_node_key (set_u32_at (set_internal_node_num_keys (set_node_root (init_internal_node m) true) 1) (internal_node_cell_offset 0) T.pager.num_pages) 0 (leaf_node_key m (leaf_node_num_cells m - 1))) right_child_page_num := by
    simp only [pageMem]
    rw [list_getD_set_ne _ _ _ _ _ (by omega), list_getD_set_ne _ _ _ _ _ (by omega),
      list_getD_set_self _ _ _ _ (by simp only [List.length_set, hlen]; omega)]
    rfl
  have hpright : pageMem ({ root_page_num := T.root_page_num, pager := { file := T.pager.file, file_length := T.pager.file_length, num_pages := T.pager.num_pages + 1, pages := (((((T.pager.pages.set T.pager.num_pages (some 0)).set T.pager.num_pages (some (set_node_root m false))).set T.root_page_num (some (set_internal_node_right_child (set_internal_node_key (set_u32_at (set_internal_node_num_keys (set_node_root (init_internal_node m) true) 1) (internal_node_cell_offset 0) T.pager.num_pages) 0 (leaf_node_key m (leaf_node_num_cells m - 1))) right_child_page_num))).set T.pager.num_pages (some (set_node_parent (set_node_root m false) T.root_page_num))).set right_child_page_num (some (set_node_parent mr T.root_page_num))) } }) right_child_page_num = set_node_parent mr T.root_page_num := by
    simp only [pageMem]
    rw [list_getD_set_self _ _ _ _ (by simp only [List.length_set, hlen]; omega)]
    rfl
  have hty3 : readByte (set_internal_node_right_child (set_internal_node_key (set_u32_at (set_internal_node_num_keys (set_node_root (init_internal_node m) true) 1) (internal_node_cell_offset 0) T.pager.num_pages) 0 (leaf_node_key m (leaf_node_num_cells m - 1))) right_child_page_num) NODE_TYPE_OFFSET = 0 := by
    unfold readByte
    simp only [set_internal_node_right_child, set_internal_node_key,
      set_internal_node_num_keys, set_node_root, init_internal_node, set_node_type,
      set_node_parent, set_u32_at, get_u32_at, internal_node_cell_offset,
      INTERNAL_NODE_HEADER_SIZE, INTERNAL_NODE_CELL_SIZE, INTERNAL_NODE_CHILD_SIZE,
      INTERNAL_NODE_KEY_OFFSET, INTERNAL_NODE_NUM_KEYS_OFFSET,
      INTERNAL_NODE_NUM_KEYS_SIZE, INTERNAL_NODE_RIGHT_CHILD_OFFSET,
      INTERNAL_NODE_RIGHT_CHILD_SIZE, COMMON_NODE_HEADER_SIZE, NODE_TYPE_OFFSET,
      NODE_TYPE_SIZE, IS_ROOT_OFFSET, IS_ROOT_SIZE, PARENT_POINTER_OFFSET,
      PARENT_POINTER_SIZE, Nat.reduceAdd, Nat.reduceMul]
    repeat first
      | rw [readRange_writeRange_below _ _ _ _ _ _ (by decide)]
      | rw [readRange_writeRange_above _ _ _ _ _ _ (by decide)]
    rw [readRange_writeRange_self]
    decide
  have hnk3 : internal_node_num_keys (set_internal_node_right_child (set_internal_node_key (set_u32_at (set_internal_node_num_keys (set_node_root (init_internal_node m) true) 1) (internal_node_cell_offset 0) T.pager.num_pages) 0 (leaf_node_key m (leaf_node_num_cells m - 1))) right_child_page_num) = 1 := by
    unfold internal_node_num_keys get_u32_at
    simp only [set_internal_node_right_child, set_internal_node_key,
      set_internal_node_num_keys, set_node_root, init_internal_node, set_node_type,
      set_node_parent, set_u32_at, get_u32_at, internal_node_cell_offset,
      INTERNAL_NODE_HEADER_SIZE, INTERNAL_NODE_CELL_SIZE, INTERNAL_NODE_CHILD_SIZE,
      INTERNAL_NODE_KEY_OFFSET, INTERNAL_NODE_NUM_KEYS_OFFSET,
      INTERNAL_NODE_NUM_KEYS_SIZE, INTERNAL_NODE_RIGHT_CHILD_OFFSET,
      INTERNAL_NODE_RIGHT_CHILD_SIZE, COMMON_NODE_HEADER_SIZE, NODE_TYPE_OFFSET,
      NODE_TYPE_SIZE, IS_ROOT_OFFSET, IS_ROOT_SIZE, PARENT_POINTER_OFFSET,
      PARENT_POINTER_SIZE, Nat.reduceAdd, Nat.reduceMul]
    repeat first
      | rw [readRange_writeRange_below _ _ _ _ _ _ (by decide)]
      | rw [readRange_writeRange_above _ _ _ _ _ _ (by decide)]
    rw [readRange_writeRange_self]
    decide
  have hcr3 : get_u32_at (set_internal_node_right_child (set_internal_node_key (set_u32_at (set_internal_node_num_keys (set_node_root (init_internal_node m) true) 1) (internal_node_cell_offset 0) T.pager.num_pages) 0 (leaf_node_key m (leaf_node_num_cells m - 1))) right_child_page_num) (internal_node_cell_offset 0) = T.pager.num_pages := by
    simp only [set_internal_node_right_child, set_internal_node_key,
      set_internal_node_num_keys, set_node_root, init_internal_node, set_node_type,
      set_node_parent, set_u32_at, get_u32_at, internal_node_cell_offset,
      INTERNAL_NODE_HEADER_SIZE, INTERNAL_NODE_CELL_SIZE, INTERNAL_NODE_CHILD_SIZE,
      INTERNAL_NODE_KEY_OFFSET, INTERNAL_NODE_NUM_KEYS_OFFSET,
      INTERNAL_NODE_NUM_KEYS_SIZE, INTERNAL_NODE_RIGHT_CHILD_OFFSET,
      INTERNAL_NODE_RIGHT_CHILD_SIZE, COMMON_NODE_HEADER_SIZE, NODE_TYPE_OFFSET,
      NODE_TYPE_SIZE, IS_ROOT_OFFSET, IS_ROOT_SIZE, PARENT_POINTER_OFFSET,
      PARENT_POINTER_SIZE, Nat.reduceAdd, Nat.reduceMul]
    repeat first
      | rw [readRange_writeRange_below _ _ _ _ _ _ (by decide)]
      | rw [readRange_writeRange_above _ _ _ _ _ _ (by decide)]
    rw [readRange_writeRange_self]
    exact Nat.mod_eq_of_lt hNlt
  refine ⟨_, heval, rfl, ?_, ?_, ?_, ?_, ?_, ?_, ?_, ?_, ?_, ?_⟩
  · exact hpN
  · rw [hpN]
    unfold is_node_root set_node_parent set_node_root set_u32_at readByte
    rw [readRange_writeRange_below _ _ _ _ _ _ (by decide), readRange_writeRange_self]
    decide
  · rw [hpN]
    unfold node_parent set_node_parent get_u32_at set_u32_at
    rw [readRange_writeRange_self]
    exact Nat.mod_eq_of_lt hRlt
  · rw [hpR]
    unfold get_node_type
    rw [hty3]
  · rw [hpR]
    unfold is_node_root readByte
    simp only [set_internal_node_right_child, set_internal_node_key,
      set_internal_node_num_keys, set_node_root, init_internal_node, set_node_type,
      set_node_parent, set_u32_at, get_u32_at, internal_node_cell_offset,
      INTERNAL_NODE_HEADER_SIZE, INTERNAL_NODE_CELL_SIZE, INTERNAL_NODE_CHILD_SIZE,
      INTERNAL_NODE_KEY_OFFSET, INTERNAL_NODE_NUM_KEYS_OFFSET,
      INTERNAL_NODE_NUM_KEYS_SIZE, INTERNAL_NODE_RIGHT_CHILD_OFFSET,
      INTERNAL_NODE_RIGHT_CHILD_SIZE, COMMON_NODE_HEADER_SIZE, NODE_TYPE_OFFSET,
      NODE_TYPE_SIZE, IS_ROOT_OFFSET, IS_ROOT_SIZE, PARENT_POINTER_OFFSET,
      PARENT_POINTER_SIZE, Nat.reduceAdd, Nat.reduceMul]
    repeat first
      | rw [readRange_writeRange_below _ _ _ _ _ _ (by decide)]
      | rw [readRange_writeRange_above _ _ _ _ _ _ (by decide)]
    rw [readRange_writeRange_self]
    decide
  · rw [hpR, hnk3]
  · rw [hpR]
    unfold internal_node_child_get
    simp only [hnk3, hcr3, gt_iff_lt, Nat.reduceLT, Nat.reduceEqDiff, reduceIte, if_false,
      ite_false]
    rw [if_neg (by omega)]
  · rw [hpR]
    unfold internal_node_key_at get_u32_at
    simp only [set_internal_node_right_child, set_internal_node_key,
      set_internal_node_num_keys, set_node_root, init_internal_node, set_node_type,
      set_node_parent, set_u32_at, get_u32_at, internal_node_cell_offset,
      INTERNAL_NODE_HEADER_SIZE, INTERNAL_NODE_CELL_SIZE, INTERNAL_NODE_CHILD_SIZE,
      INTERNAL_NODE_KEY_OFFSET, INTERNAL_NODE_NUM_KEYS_OFFSET,
      INTERNAL_NODE_NUM_KEYS_SIZE, INTERNAL_NODE_RIGHT_CHILD_OFFSET,
      INTERNAL_NODE_RIGHT_CHILD_SIZE, COMMON_NODE_HEADER_SIZE, NODE_TYPE_OFFSET,
      NODE_TYPE_SIZE, IS_ROOT_OFFSET, IS_ROOT_SIZE, PARENT_POINTER_OFFSET,
      PARENT_POINTER_SIZE, Nat.reduceAdd, Nat.reduceMul]
    repeat first
      | rw [readRange_writeRange_below _ _ _ _ _ _ (by decide)]
      | rw [readRange_writeRange_above _ _ _ _ _ _ (by decide)]
    rw [readRange_writeRange_self]
    exact Nat.mod_eq_of_lt
      (show leaf_node_key m (leaf_node_num_cells m - 1) < 256 ^ 4 from
        readRange_lt m _ 4)
  · rw [hpR]
    unfold internal_node_right_child get_u32_at
    simp only [set_internal_node_right_child, set_internal_node_key,
      set_internal_node_num_keys, set_node_root, init_internal_node, set_node_type,
      set_node_parent, set_u32_at, get_u32_at, internal_node_cell_offset,
      INTERNAL_NODE_HEADER_SIZE, INTERNAL_NODE_CELL_SIZE, INTERNAL_NODE_CHILD_SIZE,
      INTERNAL_NODE_KEY_OFFSET, INTERNAL_NODE_NUM_KEYS_OFFSET,
      INTERNAL_NODE_NUM_KEYS_SIZE, INTERNAL_NODE_RIGHT_CHILD_OFFSET,
      INTERNAL_NODE_RIGHT_CHILD_SIZE, COMMON_NODE_HEADER_SIZE, NODE_TYPE_OFFSET,
      NODE_TYPE_SIZE, IS_ROOT_OFFSET, IS_ROOT_SIZE, PARENT_POINTER_OFFSET,
      PARENT_POINTER_SIZE, Nat.reduceAdd, Nat.reduceMul]
    rw [readRange_writeRange_self]
    exact Nat.mod_eq_of_lt hrlt
  · rw [hpright]
    unfold node_parent set_node_parent get_u32_at set_u32_at
    rw [readRange_writeRange_self]
    exact Nat.mod_eq_of_lt hRlt

/-- Witness for C6 on the concrete table cnrT: the leaf root pg13 is
relocated to page 2 and page 0 becomes the internal root over pages 2
and 1. -/
theorem C6_create_new_root_promotes_leaf_root_witness :
    ∃ T2,
      create_new_root 1 cnrT 1 = .ok T2 ∧
      T2.root_page_num = 0 ∧
      pageMem T2 2 = set_node_parent (set_node_root pg13 false) 0 ∧
      is_node_root (pageMem T2 2) = false ∧
      node_parent (pageMem T2 2) = 0 ∧
      get_node_type (pageMem T2 0) = .ok .internal ∧
      is_node_root (pageMem T2 0) = true ∧
      internal_node_num_keys (pageMem T2 0) = 1 ∧
      internal_node_child_get (pageMem T2 0) 0 = .ok 2 ∧
      internal_node_key_at (pageMem T2 0) 0 =
        leaf_node_key pg13 (leaf_node_num_cells pg13 - 1) ∧
      internal_node_right_child (pageMem T2 0) = 1 ∧
      node_parent (pageMem T2 1) = 0 :=
  C6_create_new_root_promotes_leaf_root 0 cnrT 1 pg13 pg0 (by decide) (by decide)
    (by decide) (by decide) (by decide) (by decide) (by decide) (by decide) (by decide)
    (by decide) (by decide) (by decide) (by decide) (by decide)

end SqliteClone
